import Mathlib

/-! # EMM identification procedure (MME side)

A shallow embedding of `openair-cn/NAS/MME/EMM/Identification.c`.

* The process state touched by the procedure is an explicit `World`: the UE
  context store (`_emm_data`), the heap cells holding `identification_data_t`
  records, the common-procedure registry, and the logs of the primitives handed
  to `emm_sap_send` and of the operations handed to the NAS timer service.
* Collaborators that are only called (SAP dispatch, timer service, `malloc`)
  are fields of a `Platform`: arbitrary functions of the call history, so every
  theorem holds for every behaviour of those collaborators.
* C pointers to `identification_data_t` are heap addresses (`Option Nat`,
  `none` is `NULL`); dereferencing `NULL` or a freed cell is a `Fault`.
-/

namespace Identification

/-! ## Data model -/

/-- The `imsi_t` buffer (copied as a whole by `memcpy`). -/
structure imsi_t where
  digits : List Nat
deriving DecidableEq, Repr

/-- The `imei_t` buffer (copied as a whole by `memcpy`). -/
structure imei_t where
  digits : List Nat
deriving DecidableEq, Repr

/-- The `gummei_t` routing prefix of a GUTI. -/
structure gummei_t where
  plmn : Nat
  MMEgid : Nat
  MMEcode : Nat
deriving DecidableEq, Repr

/-- The `GUTI_t` record: `gummei` and `m_tmsi`. -/
structure GUTI_t where
  gummei : gummei_t
  m_tmsi : Nat
deriving DecidableEq, Repr

/-- The `nas_timer_t` pair held in the UE context (`T3470.id`, `T3470.sec`). -/
structure nas_timer_t where
  id : Int
  sec : Int
deriving DecidableEq, Repr

/-- The fields of `emm_data_context_t` read or written by the procedure.
A `none` identity field is a `NULL` pointer. -/
structure emm_data_context_t where
  imsi : Option imsi_t
  imei : Option imei_t
  guti : Option GUTI_t
  security : Option Nat
  is_attached : Int
  T3470 : nas_timer_t
deriving DecidableEq, Repr

/-- The enumeration `emm_proc_identity_type_t`, in the order of the table
`_emm_identity_type_str`. -/
inductive emm_proc_identity_type_t
  | NOT_AVAILABLE
  | IMSI
  | IMEI
  | IMEISV
  | TMSI
deriving DecidableEq, Repr

/-- The C truth value `FALSE`. -/
def FALSE : Int := 0

/-- The C truth value `TRUE`. -/
def TRUE : Int := 1

/-- The bound `IDENTIFICATION_COUNTER_MAX` of the retransmission counter. -/
def IDENTIFICATION_COUNTER_MAX : Nat := 5

/-- The record `identification_data_t` (the procedure context). -/
structure identification_data_t where
  ueid : Nat
  retransmission_count : Nat
  type : emm_proc_identity_type_t
  notify_failure : Int
deriving DecidableEq, Repr

/-- The primitives of `emm_sap_t` used by the procedure. -/
inductive emm_primitive_t
  | EMMREG_COMMON_PROC_REQ
  | EMMREG_COMMON_PROC_CNF
  | EMMREG_COMMON_PROC_REJ
  | EMMAS_SECURITY_REQ
deriving DecidableEq, Repr

/-- The value of a local `emm_sap_t` when it is handed to `emm_sap_send`.
Only the members the code assigns are listed; `none` in `ctx` or
`is_attached` of an `emm_reg` message means the member was left unassigned.
A context pointer is `some none` for `NULL` and `some (some u)` for the
context stored for UE id `u`. -/
inductive emm_sap_t
  | emm_reg (primitive : emm_primitive_t) (ueid : Nat)
      (ctx : Option (Option Nat)) (is_attached : Option Int)
  | emm_as_security (primitive : emm_primitive_t) (guti : Option GUTI_t)
      (ueid : Nat) (msgType : Nat) (identType : emm_proc_identity_type_t)
      (sctx : Nat)
deriving DecidableEq, Repr

/-- The primitive of a message. -/
def emm_sap_t.prim : emm_sap_t → emm_primitive_t
  | .emm_reg p _ _ _ => p
  | .emm_as_security p _ _ _ _ _ => p

/-- An operation handed to the NAS timer service. The callback of every
`start` is `_identification_t3470_handler`; `arg` is its parameter. -/
inductive timer_op
  | start (sec : Int) (arg : Option Nat)
  | restart (id : Int)
  | stop (id : Int)
deriving DecidableEq, Repr

/-- An entry of the common-procedure registry: the three owner callbacks
(as opaque identifiers) and the argument bound to the abort entry point. -/
structure emm_common_data_t where
  success : Nat
  reject : Nat
  failure : Nat
  args : Option Nat
deriving DecidableEq, Repr

/-- The build-time constants and the collaborators that are declared outside
this source file. Every collaborator may answer as a function of the calls
made so far. -/
structure Platform where
  /-- Whether `NAS_BUILT_IN_EPC` is defined. -/
  NAS_BUILT_IN_EPC : Bool
  /-- Size of the array `_emm_data.ctx` in the array-backed build. -/
  EMM_DATA_NB_UE_MAX : Nat
  /-- The inactive timer sentinel. -/
  NAS_TIMER_INACTIVE_ID : Int
  /-- Status code of success. -/
  RETURNok : Int
  /-- Status code of failure. -/
  RETURNerror : Int
  /-- The two status codes are distinct. -/
  ok_ne_error : RETURNok ≠ RETURNerror
  /-- The message type `EMM_AS_MSG_TYPE_IDENT`. -/
  EMM_AS_MSG_TYPE_IDENT : Nat
  /-- Status returned by `emm_sap_send`, given the primitives sent before. -/
  sap_status : List emm_sap_t → emm_sap_t → Int
  /-- Handle returned by `nas_timer_start`. -/
  timer_start : List timer_op → Int → Option Nat → Int
  /-- Handle returned by `nas_timer_restart`. -/
  timer_restart : List timer_op → Int → Int
  /-- Handle returned by `nas_timer_stop`. -/
  timer_stop : List timer_op → Int → Int
  /-- Whether the n-th call of `malloc` returns a non-null pointer. -/
  malloc_ok : Nat → Bool
  /-- The security data that `emm_as_set_security_data` derives from the
  security context pointer and its two flags. -/
  security_data : Option Nat → Int → Int → Nat

/-- The mutable process state. -/
structure World where
  /-- The UE context store of `_emm_data`, by UE id. -/
  ctx : Nat → Option emm_data_context_t
  /-- The configured `_emm_data.conf.gummei`. -/
  conf_gummei : gummei_t
  /-- Heap cells of `identification_data_t`; `none` is a freed cell. -/
  heap : List (Option identification_data_t)
  /-- The common-procedure registry, by UE id. -/
  registry : Nat → Option emm_common_data_t
  /-- Primitives handed to `emm_sap_send`, oldest first. -/
  sapLog : List emm_sap_t
  /-- Operations handed to the timer service, oldest first. -/
  timerLog : List timer_op
  /-- Number of `malloc` calls made so far. -/
  nalloc : Nat

/-- Undefined behaviour reached by the C code. -/
inductive Fault
  /-- Member access through a `NULL` UE context pointer. -/
  | null_ctx
  /-- Access through a `NULL` or freed `identification_data_t` pointer. -/
  | bad_data
  /-- The function `free` applied to a cell that is not allocated. -/
  | bad_free
deriving DecidableEq, Repr

/-! ## Collaborators -/

/-- The record behind a data pointer, if the pointer is valid. -/
def deref (w : World) (p : Option Nat) : Option identification_data_t :=
  match p with
  | none => none
  | some a => (w.heap[a]?).join

/-- Assignment through a valid data pointer. -/
def poke (w : World) (a : Nat) (d : identification_data_t) : World :=
  { w with heap := w.heap.set a (some d) }

/-- A call of `malloc`: the outcome and the count of calls. -/
def malloc (E : Platform) (w : World) : World × Bool :=
  ({ w with nalloc := w.nalloc + 1 }, E.malloc_ok w.nalloc)

/-- The call `malloc(sizeof(identification_data_t))`: a fresh cell on success (its
contents are assigned before they are read), `NULL` on failure. -/
def malloc_data (E : Platform) (w : World) : World × Option Nat :=
  let r := malloc E w
  if r.2 then
    ({ r.1 with heap := r.1.heap ++
        [some ⟨0, 0, emm_proc_identity_type_t.NOT_AVAILABLE, 0⟩] },
      some r.1.heap.length)
  else (r.1, none)

/-- The call `free(data)` for a non-null data pointer. -/
def free (w : World) (a : Nat) : Except Fault World :=
  match deref w (some a) with
  | none => .error Fault.bad_free
  | some _ => .ok { w with heap := w.heap.set a none }

/-- Modelled from the spec: the Signaling Dispatch operation `send(primitive)`
behind `emm_sap_send` (its source is not part of this development). The
primitive is handed over and a status comes back; the status is the one the
platform gives for this primitive after the primitives sent before. -/
def emm_sap_send (E : Platform) (w : World) (m : emm_sap_t) : World × Int :=
  ({ w with sapLog := w.sapLog ++ [m] }, E.sap_status w.sapLog m)

/-- Modelled from the spec: the Timer Service operation `start(interval,
callback, arg)` behind `nas_timer_start(sec, _identification_t3470_handler, arg)`
(its source is not part of this development); the handle is the one the
platform gives. -/
def nas_timer_start (E : Platform) (w : World) (sec : Int) (arg : Option Nat) :
    World × Int :=
  ({ w with timerLog := w.timerLog ++ [timer_op.start sec arg] },
    E.timer_start w.timerLog sec arg)

/-- Modelled from the spec: the Timer Service operation `restart(handle)`
behind `nas_timer_restart(id)` (its source is not part of this development). -/
def nas_timer_restart (E : Platform) (w : World) (id : Int) : World × Int :=
  ({ w with timerLog := w.timerLog ++ [timer_op.restart id] },
    E.timer_restart w.timerLog id)

/-- Modelled from the spec: the Timer Service operation `stop(handle)` behind
`nas_timer_stop(id)` (its source is not part of this development). -/
def nas_timer_stop (E : Platform) (w : World) (id : Int) : World × Int :=
  ({ w with timerLog := w.timerLog ++ [timer_op.stop id] },
    E.timer_stop w.timerLog id)

/-- The guarded UE context lookup repeated in `complete`, `request` and
`abort`: `emm_data_context_get` when `ueid > 0` in the built-in-EPC build,
`_emm_data.ctx[ueid]` when `ueid < EMM_DATA_NB_UE_MAX` otherwise, and `NULL`
when the guard fails. Both stores are the field `ctx` of the state, so that
`emm_data_context_get(&_emm_data, ueid)` is the store operation `get(ue_id)`. -/
def emm_ctx_get (E : Platform) (w : World) (ueid : Nat) :
    Option emm_data_context_t :=
  if E.NAS_BUILT_IN_EPC then
    if ueid > 0 then w.ctx ueid else none
  else
    if ueid < E.EMM_DATA_NB_UE_MAX then w.ctx ueid else none

/-- Assignment of the record behind a non-null `emm_ctx` obtained for `ueid`. -/
def emm_ctx_put (w : World) (ueid : Nat) (c : emm_data_context_t) : World :=
  { w with ctx := Function.update w.ctx ueid (some c) }

/-- Modelled from the spec: the registry operation `register` behind
`emm_proc_common_initialize` (its source is not part of this development).
Registration fails on a duplicate entry for the UE or when the entry cannot be
allocated; a failure leaves the registry as it was. -/
def emm_proc_common_initialize (E : Platform) (w : World) (ueid : Nat)
    (success reject failure : Nat) (args : Option Nat) : World × Int :=
  if (w.registry ueid).isSome then (w, E.RETURNerror)
  else
    let r := malloc E w
    if r.2 then
      ({ r.1 with registry :=
          Function.update r.1.registry ueid (some ⟨success, reject, failure, args⟩) },
        E.RETURNok)
    else (r.1, E.RETURNerror)

/-- Modelled from the spec: the registry operation `lookup` behind
`emm_proc_common_get_args` (its source is not part of this development):
the argument registered for the UE, or `NULL`. -/
def emm_proc_common_get_args (w : World) (ueid : Nat) : Option Nat :=
  match w.registry ueid with
  | none => none
  | some e => e.args

/-! ## The primitives built by the procedure -/

/-- The identity request built by `_identification_request` for a procedure
context `d` and the UE context `c` found for it. -/
def identity_request (E : Platform) (d : identification_data_t)
    (c : emm_data_context_t) : emm_sap_t :=
  emm_sap_t.emm_as_security emm_primitive_t.EMMAS_SECURITY_REQ none d.ueid
    E.EMM_AS_MSG_TYPE_IDENT d.type (E.security_data c.security FALSE TRUE)

/-- The `EMMREG_COMMON_PROC_REJ` built by `_identification_abort`. -/
def abort_reject (ueid : Nat) : emm_sap_t :=
  emm_sap_t.emm_reg emm_primitive_t.EMMREG_COMMON_PROC_REJ ueid none none

/-- The `EMMREG_COMMON_PROC_REJ` built by `emm_proc_identification_complete`. -/
def complete_reject (ueid : Nat) : emm_sap_t :=
  emm_sap_t.emm_reg emm_primitive_t.EMMREG_COMMON_PROC_REJ ueid (some none) none

/-- The `EMMREG_COMMON_PROC_CNF` built by `emm_proc_identification_complete`. -/
def complete_confirm (ueid : Nat) (is_attached : Int) : emm_sap_t :=
  emm_sap_t.emm_reg emm_primitive_t.EMMREG_COMMON_PROC_CNF ueid (some (some ueid))
    (some is_attached)

/-- The `EMMREG_COMMON_PROC_REQ` built by `emm_proc_identification`. -/
def started (ueid : Nat) (emm_ctx : Option Nat) : emm_sap_t :=
  emm_sap_t.emm_reg emm_primitive_t.EMMREG_COMMON_PROC_REQ ueid (some emm_ctx) none

/-! ## The procedure -/

/-- The function `_identification_request`: sends the IDENTITY REQUEST and, unless the
send returned `RETURNerror`, restarts or starts T3470. -/
def _identification_request (E : Platform) (w : World) (data : Option Nat) :
    Except Fault (World × Int) :=
  match deref w data with
  | none => .error Fault.bad_data
  | some d =>
    match emm_ctx_get E w d.ueid with
    | none => .error Fault.null_ctx
    | some c =>
      let s := emm_sap_send E w (identity_request E d c)
      if s.2 ≠ E.RETURNerror then
        if c.T3470.id ≠ E.NAS_TIMER_INACTIVE_ID then
          let t := nas_timer_restart E s.1 c.T3470.id
          .ok (emm_ctx_put t.1 d.ueid { c with T3470 := { c.T3470 with id := t.2 } }, s.2)
        else
          let t := nas_timer_start E s.1 c.T3470.sec data
          .ok (emm_ctx_put t.1 d.ueid { c with T3470 := { c.T3470 with id := t.2 } }, s.2)
      else .ok s

/-- The function `_identification_abort`: stops T3470 if it is active, frees the procedure
context and, when `notify_failure` is set, sends `EMMREG_COMMON_PROC_REJ`
(whose `ctx` member is left unassigned). A `NULL` argument returns the initial
value of `rc`. -/
def _identification_abort (E : Platform) (w : World) (args : Option Nat) :
    Except Fault (World × Int) :=
  match args with
  | none => .ok (w, E.RETURNerror)
  | some a =>
    match deref w (some a) with
    | none => .error Fault.bad_data
    | some d =>
      match emm_ctx_get E w d.ueid with
      | none => .error Fault.null_ctx
      | some c =>
        let w1 :=
          if c.T3470.id ≠ E.NAS_TIMER_INACTIVE_ID then
            let t := nas_timer_stop E w c.T3470.id
            emm_ctx_put t.1 d.ueid { c with T3470 := { c.T3470 with id := t.2 } }
          else w
        match free w1 a with
        | .error f => .error f
        | .ok w2 =>
          if d.notify_failure ≠ 0 then
            .ok (emm_sap_send E w2 (abort_reject d.ueid))
          else .ok (w2, E.RETURNok)

/-- The function `_identification_t3470_handler`: increments the retransmission counter
(an `unsigned int`), then resends the request while the counter is below
`IDENTIFICATION_COUNTER_MAX`, and otherwise sets `notify_failure` and aborts.
The C function returns `NULL`; the result here is the state it leaves. -/
def _identification_t3470_handler (E : Platform) (w : World) (args : Option Nat) :
    Except Fault World :=
  match args, deref w args with
  | some a, some d =>
    let d1 := { d with retransmission_count := (d.retransmission_count + 1) % 2 ^ 32 }
    if d1.retransmission_count < IDENTIFICATION_COUNTER_MAX then
      match _identification_request E (poke w a d1) args with
      | .error f => .error f
      | .ok r => .ok r.1
    else
      match _identification_abort E (poke w a { d1 with notify_failure := TRUE }) args with
      | .error f => .error f
      | .ok r => .ok r.1
  | _, _ => .error Fault.bad_data

/-- The function `emm_proc_identification`: allocates and registers the procedure context,
sends the first IDENTITY REQUEST and, unless that returned `RETURNerror`,
sends `EMMREG_COMMON_PROC_REQ`. The parameter `emm_ctx` is the context pointer
supplied by the caller (`none` for `NULL`). -/
def emm_proc_identification (E : Platform) (w : World) (ueid : Nat)
    (emm_ctx : Option Nat) (type : emm_proc_identity_type_t)
    (success reject failure : Nat) : Except Fault (World × Int) :=
  let m := malloc_data E w
  match m.2 with
  | none => .ok (m.1, E.RETURNerror)
  | some a =>
    let i := emm_proc_common_initialize E m.1 ueid success reject failure (some a)
    if i.2 ≠ E.RETURNok then
      match free i.1 a with
      | .error f => .error f
      | .ok w1 => .ok (w1, E.RETURNerror)
    else
      let w1 := poke i.1 a ⟨ueid, 0, type, FALSE⟩
      match _identification_request E w1 (some a) with
      | .error f => .error f
      | .ok r =>
        if r.2 ≠ E.RETURNerror then
          .ok (emm_sap_send E r.1 (started ueid emm_ctx))
        else .ok r

/-- The identity update of `emm_proc_identification_complete`: the first
supplied argument in the order IMSI, IMEI, TMSI is copied into its field, the
field being allocated first when it is `NULL` (and left `NULL` when that
allocation fails). -/
def update_identity (E : Platform) (w : World) (c : emm_data_context_t)
    (imsi : Option imsi_t) (imei : Option imei_t) (tmsi : Option Nat) :
    World × emm_data_context_t :=
  match imsi, imei, tmsi with
  | some v, _, _ =>
    match c.imsi with
    | some _ => (w, { c with imsi := some v })
    | none =>
      let r := malloc E w
      if r.2 then (r.1, { c with imsi := some v }) else (r.1, c)
  | none, some v, _ =>
    match c.imei with
    | some _ => (w, { c with imei := some v })
    | none =>
      let r := malloc E w
      if r.2 then (r.1, { c with imei := some v }) else (r.1, c)
  | none, none, some t =>
    match c.guti with
    | some _ => (w, { c with guti := some ⟨w.conf_gummei, t⟩ })
    | none =>
      let r := malloc E w
      if r.2 then (r.1, { c with guti := some ⟨w.conf_gummei, t⟩ }) else (r.1, c)
  | none, none, none => (w, c)

/-- The function `emm_proc_identification_complete`: frees the registered procedure
context if there is one, then either stops T3470, records the identity and
sends `EMMREG_COMMON_PROC_CNF`, or, without a UE context, sends
`EMMREG_COMMON_PROC_REJ`. -/
def emm_proc_identification_complete (E : Platform) (w : World) (ueid : Nat)
    (imsi : Option imsi_t) (imei : Option imei_t) (tmsi : Option Nat) :
    Except Fault (World × Int) :=
  let released : Except Fault World :=
    match emm_proc_common_get_args w ueid with
    | none => .ok w
    | some a => free w a
  match released with
  | .error f => .error f
  | .ok w1 =>
    match emm_ctx_get E w1 ueid with
    | some c =>
      let t := nas_timer_stop E w1 c.T3470.id
      let u := update_identity E t.1 { c with T3470 := { c.T3470 with id := t.2 } }
        imsi imei tmsi
      .ok (emm_sap_send E (emm_ctx_put u.1 ueid u.2) (complete_confirm ueid u.2.is_attached))
    | none => .ok (emm_sap_send E w1 (complete_reject ueid))

/-! ## Runs of one procedure instance -/

/-- Delivery of `n` consecutive T3470 expiries to the handler bound to `args`. -/
def expiries (E : Platform) (args : Option Nat) : Nat → World → Except Fault World
  | 0, w => .ok w
  | n + 1, w =>
    match _identification_t3470_handler E w args with
    | .error f => .error f
    | .ok w1 => expiries E args n w1

/-- An event delivered to a started procedure instance. -/
inductive Event
  | expiry
  | complete (imsi : Option imsi_t) (imei : Option imei_t) (tmsi : Option Nat)
  | abort
deriving DecidableEq, Repr

/-- Delivery of one event to the instance of UE `ueid` whose procedure context
is `args`. -/
def step (E : Platform) (ueid : Nat) (args : Option Nat) (w : World) :
    Event → Except Fault World
  | .expiry => _identification_t3470_handler E w args
  | .complete imsi imei tmsi =>
    match emm_proc_identification_complete E w ueid imsi imei tmsi with
    | .error f => .error f
    | .ok r => .ok r.1
  | .abort =>
    match _identification_abort E w args with
    | .error f => .error f
    | .ok r => .ok r.1

/-- Delivery of a sequence of events, oldest first. -/
def run (E : Platform) (ueid : Nat) (args : Option Nat) :
    World → List Event → Except Fault World
  | w, [] => .ok w
  | w, e :: es =>
    match step E ueid args w e with
    | .error f => .error f
    | .ok w1 => run E ueid args w1 es

/-- A whole lifetime: `emm_proc_identification` followed by the events, which
are delivered to the procedure context that the start allocated. -/
def lifetime (E : Platform) (w : World) (ueid : Nat) (emm_ctx : Option Nat)
    (type : emm_proc_identity_type_t) (success reject failure : Nat)
    (evs : List Event) : Except Fault World :=
  match emm_proc_identification E w ueid emm_ctx type success reject failure with
  | .error f => .error f
  | .ok r => run E ueid (malloc_data E w).2 r.1 evs

/-- Whether a primitive is an owner outcome notification. -/
def is_outcome (m : emm_sap_t) : Bool :=
  decide (m.prim = emm_primitive_t.EMMREG_COMMON_PROC_CNF) ||
    decide (m.prim = emm_primitive_t.EMMREG_COMMON_PROC_REJ)

/-- Number of owner outcome notifications (CNF or REJ) in a log. -/
def outcomes (l : List emm_sap_t) : Nat :=
  l.countP is_outcome

/-- Number of identity requests (`EMMAS_SECURITY_REQ`) in a log. -/
def identity_requests (l : List emm_sap_t) : Nat :=
  l.countP (fun m => decide (m.prim = emm_primitive_t.EMMAS_SECURITY_REQ))

/-- The procedure context registered for the UE, if any, is still allocated,
so that `emm_proc_identification_complete` frees an allocated cell. -/
def registry_sound (w : World) (ueid : Nat) : Prop :=
  ∀ a, emm_proc_common_get_args w ueid = some a → (deref w (some a)).isSome = true

/-- The state after the release step of `emm_proc_identification_complete`
when the registered procedure context, if any, is allocated. -/
def released (w : World) (ueid : Nat) : World :=
  match emm_proc_common_get_args w ueid with
  | none => w
  | some a => { w with heap := w.heap.set a none }

/-- The state of `emm_proc_identification` just before its call of
`_identification_request`, when the procedure context was allocated at `a`
and registered. -/
def prepared (E : Platform) (w : World) (ueid : Nat)
    (type : emm_proc_identity_type_t) (success reject failure a : Nat) : World :=
  poke ( emm_proc_common_initialize E (malloc_data E w).1 ueid success reject failure
    (some a)).1 a ⟨ueid, 0, type, FALSE⟩

/-- Two calls of `_identification_abort` in a row on the same argument. -/
def abort_twice (E : Platform) (w : World) (args : Option Nat) :
    Except Fault (World × Int) :=
  match _identification_abort E w args with
  | .error f => .error f
  | .ok r => _identification_abort E r.1 args

/-- The content of an identity request of the procedure started for `ueid`
with identity type `type`: a message whose primitive is `EMMAS_SECURITY_REQ`
has a null GUTI, that UE id, the message type `EMM_AS_MSG_TYPE_IDENT` and that
identity type. -/
def request_shape (E : Platform) (ueid : Nat) (type : emm_proc_identity_type_t)
    (m : emm_sap_t) : Prop :=
  m.prim = emm_primitive_t.EMMAS_SECURITY_REQ →
    ∃ sctx, m = emm_sap_t.emm_as_security emm_primitive_t.EMMAS_SECURITY_REQ none ueid
      E.EMM_AS_MSG_TYPE_IDENT type sctx

/-- The condition of a procedure instance between two events: its context
`args` is freed (or was never allocated), or it is allocated and registered
for the UE, holds the UE id and identity type of the start, a counter below
`IDENTIFICATION_COUNTER_MAX` and a clear `notify_failure`. -/
def between_events (ueid : Nat) (type : emm_proc_identity_type_t)
    (args : Option Nat) (w : World) : Prop :=
  deref w args = none ∨
    (emm_proc_common_get_args w ueid = args ∧
      ∃ k, k < IDENTIFICATION_COUNTER_MAX ∧ deref w args = some ⟨ueid, k, type, FALSE⟩)

/-- A UE id outside the valid range of the store: 0 in the built-in-EPC build,
at least `EMM_DATA_NB_UE_MAX` in the array-backed build. -/
def ueid_out_of_range (E : Platform) (ueid : Nat) : Prop :=
  if E.NAS_BUILT_IN_EPC then ueid = 0 else E.EMM_DATA_NB_UE_MAX ≤ ueid

/-! ## A concrete platform and state -/

/-- A platform on which every collaborator succeeds. -/
def P0 : Platform where
  NAS_BUILT_IN_EPC := true
  EMM_DATA_NB_UE_MAX := 10
  NAS_TIMER_INACTIVE_ID := -1
  RETURNok := 0
  RETURNerror := -1
  ok_ne_error := by decide
  EMM_AS_MSG_TYPE_IDENT := 0
  sap_status := fun _ _ => 0
  timer_start := fun _ _ _ => 1
  timer_restart := fun _ id => id
  timer_stop := fun _ _ => -1
  malloc_ok := fun _ => true
  security_data := fun _ _ _ => 0

/-- The platform `P0` with a SAP dispatch that refuses every primitive. -/
def P_sap_fails : Platform :=
  { P0 with sap_status := fun _ _ => -1 }

/-- The platform `P0` with a `malloc` that always returns `NULL`. -/
def P_no_memory : Platform :=
  { P0 with malloc_ok := fun _ => false }

/-- A UE context without any recorded identity and with T3470 inactive. -/
def c0 : emm_data_context_t :=
  ⟨none, none, none, none, 1, ⟨-1, 6⟩⟩

/-- A state in which only UE 7 has a context and no procedure is running. -/
def w0 : World where
  ctx := fun u => if u = 7 then some c0 else none
  conf_gummei := ⟨20893, 4, 1⟩
  heap := []
  registry := fun _ => none
  sapLog := []
  timerLog := []
  nalloc := 0

/-- The state `w0` with a procedure context for UE 7 at address 0, registered
for UE 7, its timer running under handle 3. -/
def w_running (notify_failure : Int) : World :=
  { w0 with
    ctx := fun u => if u = 7 then some { c0 with T3470 := ⟨3, 6⟩ } else none
    heap := [some ⟨7, 0, emm_proc_identity_type_t.IMSI, notify_failure⟩]
    registry := fun u => if u = 7 then some ⟨1, 2, 3, some 0⟩ else none }

/-- A UE context that already holds an IMEI and a GUTI. -/
def c_identified : emm_data_context_t :=
  ⟨none, some ⟨[3, 5]⟩, some ⟨⟨20893, 4, 1⟩, 77⟩, none, 1, ⟨3, 6⟩⟩

/-- The state `w0` with the context `c_identified` for UE 7. -/
def w_identified : World :=
  { w0 with ctx := fun u => if u = 7 then some c_identified else none }

/-- The platform `P0` in the array-backed build, with 10 entries. -/
def P_array : Platform :=
  { P0 with NAS_BUILT_IN_EPC := false }

/-- The state `w0` with a store that answers every UE id with the context
`c_identified`, also outside the valid range. -/
def w_full : World :=
  { w0 with ctx := fun _ => some c_identified }

/-- The IMSI of the happy-path scenario. -/
def imsi0 : imsi_t :=
  ⟨[0, 0, 1, 0, 1, 0, 1, 2, 3, 4, 5, 6, 7, 8, 9]⟩

/-! ## Frame lemmas for the collaborators -/

@[simp] theorem emm_ctx_get_poke (E : Platform) (w : World) (a : Nat)
    (d : identification_data_t) (u : Nat) :
    emm_ctx_get E (poke w a d) u = emm_ctx_get E w u := rfl

@[simp] theorem emm_ctx_get_sap (E : Platform) (w : World) (m : emm_sap_t) (u : Nat) :
    emm_ctx_get E (emm_sap_send E w m).1 u = emm_ctx_get E w u := rfl

@[simp] theorem emm_ctx_get_timer_start (E : Platform) (w : World) (s : Int)
    (p : Option Nat) (u : Nat) :
    emm_ctx_get E (nas_timer_start E w s p).1 u = emm_ctx_get E w u := rfl

@[simp] theorem emm_ctx_get_timer_restart (E : Platform) (w : World) (i : Int) (u : Nat) :
    emm_ctx_get E (nas_timer_restart E w i).1 u = emm_ctx_get E w u := rfl

@[simp] theorem emm_ctx_get_timer_stop (E : Platform) (w : World) (i : Int) (u : Nat) :
    emm_ctx_get E (nas_timer_stop E w i).1 u = emm_ctx_get E w u := rfl

theorem emm_ctx_get_put_same (E : Platform) (w : World) (u : Nat)
    (c c1 : emm_data_context_t) (h : emm_ctx_get E w u = some c) :
    emm_ctx_get E (emm_ctx_put w u c1) u = some c1 := by
  unfold emm_ctx_get at h ⊢
  unfold emm_ctx_put
  by_cases hb : E.NAS_BUILT_IN_EPC = true
  · by_cases hu : u > 0
    · simp [hb, hu]
    · simp [hb, hu] at h
  · by_cases hu : u < E.EMM_DATA_NB_UE_MAX
    · simp [hb, hu]
    · simp [hb, hu] at h

theorem emm_ctx_get_put_other (E : Platform) (w : World) (u v : Nat)
    (c1 : emm_data_context_t) (h : v ≠ u) :
    emm_ctx_get E (emm_ctx_put w u c1) v = emm_ctx_get E w v := by
  unfold emm_ctx_get emm_ctx_put
  simp [Function.update_noteq h]

@[simp] theorem deref_put (w : World) (u : Nat) (c : emm_data_context_t) (p : Option Nat) :
    deref (emm_ctx_put w u c) p = deref w p := rfl

@[simp] theorem deref_sap (E : Platform) (w : World) (m : emm_sap_t) (p : Option Nat) :
    deref (emm_sap_send E w m).1 p = deref w p := rfl

@[simp] theorem deref_timer_start (E : Platform) (w : World) (s : Int)
    (q p : Option Nat) :
    deref (nas_timer_start E w s q).1 p = deref w p := rfl

@[simp] theorem deref_timer_restart (E : Platform) (w : World) (i : Int) (p : Option Nat) :
    deref (nas_timer_restart E w i).1 p = deref w p := rfl

@[simp] theorem deref_timer_stop (E : Platform) (w : World) (i : Int) (p : Option Nat) :
    deref (nas_timer_stop E w i).1 p = deref w p := rfl

theorem deref_lt (w : World) (a : Nat) (d : identification_data_t)
    (h : deref w (some a) = some d) : a < w.heap.length := by
  unfold deref at h
  by_contra hlt
  simp [List.getElem?_eq_none (Nat.le_of_not_lt hlt)] at h

theorem deref_poke_same (w : World) (a : Nat) (d d1 : identification_data_t)
    (h : deref w (some a) = some d) : deref (poke w a d1) (some a) = some d1 := by
  have hlt := deref_lt w a d h
  simp [deref, poke, List.getElem?_set, hlt]

theorem free_ok (w : World) (a : Nat) (d : identification_data_t)
    (h : deref w (some a) = some d) :
    free w a = .ok { w with heap := w.heap.set a none } := by
  simp [free, h]

theorem deref_freed (w : World) (a : Nat) :
    deref { w with heap := w.heap.set a none } (some a) = none := by
  simp [deref, List.getElem?_set]

/-! ## The request step -/

theorem request_eq (E : Platform) (w : World) (data : Option Nat)
    (d : identification_data_t) (c : emm_data_context_t)
    (hd : deref w data = some d) (hc : emm_ctx_get E w d.ueid = some c) :
    _identification_request E w data =
      (let s := emm_sap_send E w (identity_request E d c)
       if s.2 ≠ E.RETURNerror then
         if c.T3470.id ≠ E.NAS_TIMER_INACTIVE_ID then
           let t := nas_timer_restart E s.1 c.T3470.id
           .ok (emm_ctx_put t.1 d.ueid { c with T3470 := { c.T3470 with id := t.2 } }, s.2)
         else
           let t := nas_timer_start E s.1 c.T3470.sec data
           .ok (emm_ctx_put t.1 d.ueid { c with T3470 := { c.T3470 with id := t.2 } }, s.2)
       else .ok s) := by
  simp only [_identification_request, hd, hc, identity_request]

/-- C10. When the send of `_identification_request` does not return
`RETURNerror`, exactly one timer operation is performed: `nas_timer_start`
with the interval `T3470.sec` and this procedure context when the handle was
`NAS_TIMER_INACTIVE_ID`, `nas_timer_restart` on the previous handle otherwise.
The handle afterwards is the result of that operation, and `T3470.sec` and
every other field of the UE context keep their values. -/
theorem request_start_versus_restart (E : Platform) (w : World) (data : Option Nat)
    (d : identification_data_t) (c : emm_data_context_t)
    (hd : deref w data = some d) (hc : emm_ctx_get E w d.ueid = some c)
    (hs : E.sap_status w.sapLog (identity_request E d c) ≠ E.RETURNerror) :
    ∃ w1, _identification_request E w data =
        .ok (w1, E.sap_status w.sapLog (identity_request E d c)) ∧
      (c.T3470.id = E.NAS_TIMER_INACTIVE_ID →
        w1.timerLog = w.timerLog ++ [timer_op.start c.T3470.sec data] ∧
        emm_ctx_get E w1 d.ueid = some { c with
          T3470 := ⟨E.timer_start w.timerLog c.T3470.sec data, c.T3470.sec⟩ }) ∧
      (c.T3470.id ≠ E.NAS_TIMER_INACTIVE_ID →
        w1.timerLog = w.timerLog ++ [timer_op.restart c.T3470.id] ∧
        emm_ctx_get E w1 d.ueid = some { c with
          T3470 := ⟨E.timer_restart w.timerLog c.T3470.id, c.T3470.sec⟩ }) := by
  rw [request_eq E w data d c hd hc]
  have hs1 : (emm_sap_send E w (identity_request E d c)).2 ≠ E.RETURNerror := hs
  by_cases hi : c.T3470.id = E.NAS_TIMER_INACTIVE_ID
  · simp only [hs1, hi, ne_eq, not_false_eq_true, not_true_eq_false, if_true, if_false]
    refine ⟨_, rfl, ?_, ?_⟩
    · intro _
      exact ⟨rfl, emm_ctx_get_put_same E _ _ c _ hc⟩
    · intro h
      exact h.elim
  · simp only [hs1, hi, ne_eq, not_false_eq_true, if_true]
    refine ⟨_, rfl, ?_, ?_⟩
    · intro h
      exact h.elim
    · intro _
      exact ⟨rfl, emm_ctx_get_put_same E _ _ c _ hc⟩

/-- Instance of C10 on a running procedure: the handle 3 is restarted. -/
theorem request_start_versus_restart_witness :
    deref (w_running 0) (some 0) = some ⟨7, 0, emm_proc_identity_type_t.IMSI, 0⟩ ∧
    emm_ctx_get P0 (w_running 0) 7 = some { c0 with T3470 := ⟨3, 6⟩ } ∧
    ∃ w1, _identification_request P0 (w_running 0) (some 0) = .ok (w1, 0) ∧
      w1.timerLog = [timer_op.restart 3] ∧
      emm_ctx_get P0 w1 7 = some { c0 with T3470 := ⟨3, 6⟩ } := by
  have hd : deref (w_running 0) (some 0) = some ⟨7, 0, emm_proc_identity_type_t.IMSI, 0⟩ := rfl
  have hc : emm_ctx_get P0 (w_running 0) 7 = some { c0 with T3470 := ⟨3, 6⟩ } := rfl
  obtain ⟨w1, h1, _, h3⟩ := request_start_versus_restart P0 (w_running 0) (some 0)
    ⟨7, 0, emm_proc_identity_type_t.IMSI, 0⟩ { c0 with T3470 := ⟨3, 6⟩ } hd hc (by decide)
  exact ⟨hd, hc, w1, h1, h3 (by decide)⟩

/-! ## Abort -/

theorem abort_eq (E : Platform) (w : World) (a : Nat)
    (d : identification_data_t) (c : emm_data_context_t)
    (hd : deref w (some a) = some d) (hc : emm_ctx_get E w d.ueid = some c) :
    _identification_abort E w (some a) =
      (let w1 :=
        if c.T3470.id ≠ E.NAS_TIMER_INACTIVE_ID then
          let t := nas_timer_stop E w c.T3470.id
          emm_ctx_put t.1 d.ueid { c with T3470 := { c.T3470 with id := t.2 } }
        else w
       let w2 : World := { w1 with heap := w1.heap.set a none }
       if d.notify_failure ≠ 0 then .ok (emm_sap_send E w2 (abort_reject d.ueid))
       else .ok (w2, E.RETURNok)) := by
  have hfree : ∀ w1 : World, deref w1 (some a) = some d →
      free w1 a = .ok { w1 with heap := w1.heap.set a none } :=
    fun w1 h => free_ok w1 a d h
  simp only [_identification_abort, hd, hc, abort_reject]
  by_cases hi : c.T3470.id = E.NAS_TIMER_INACTIVE_ID
  · simp only [hi, ne_eq, not_true_eq_false, if_false, hfree w hd]
  · simp only [hi, ne_eq, not_false_eq_true, if_true]
    rw [hfree _ (by simpa using hd)]

/-- C7. For a valid procedure context whose UE context exists,
`_identification_abort` sends exactly one primitive when `notify_failure` is
set, namely `EMMREG_COMMON_PROC_REJ` for the UE id of the context, and returns
the status of that send; when `notify_failure` is clear it sends nothing and
returns `RETURNok`. -/
theorem abort_notification_rule (E : Platform) (w : World) (a : Nat)
    (d : identification_data_t) (c : emm_data_context_t)
    (hd : deref w (some a) = some d) (hc : emm_ctx_get E w d.ueid = some c) :
    ∃ w1 rc, _identification_abort E w (some a) = .ok (w1, rc) ∧
      (d.notify_failure ≠ 0 →
        w1.sapLog = w.sapLog ++ [emm_sap_t.emm_reg emm_primitive_t.EMMREG_COMMON_PROC_REJ
            d.ueid none none] ∧
        rc = E.sap_status w.sapLog (emm_sap_t.emm_reg emm_primitive_t.EMMREG_COMMON_PROC_REJ
            d.ueid none none)) ∧
      (d.notify_failure = 0 → w1.sapLog = w.sapLog ∧ rc = E.RETURNok) := by
  rw [abort_eq E w a d c hd hc]
  by_cases hn : d.notify_failure = 0 <;> by_cases hi : c.T3470.id = E.NAS_TIMER_INACTIVE_ID
  · simp only [hn, hi, ne_eq, not_true_eq_false, if_false]
    exact ⟨_, _, rfl, fun h => h.elim, fun _ => ⟨rfl, rfl⟩⟩
  · simp only [hn, hi, ne_eq, not_true_eq_false, not_false_eq_true, if_true, if_false]
    exact ⟨_, _, rfl, fun h => h.elim, fun _ => ⟨rfl, rfl⟩⟩
  · simp only [hn, hi, ne_eq, not_true_eq_false, not_false_eq_true, if_true, if_false]
    exact ⟨_, _, rfl, fun _ => ⟨rfl, rfl⟩, fun h => h.elim⟩
  · simp only [hn, hi, ne_eq, not_false_eq_true, if_true]
    exact ⟨_, _, rfl, fun _ => ⟨rfl, rfl⟩, fun h => h.elim⟩

/-- Instances of C7 on the running procedure of UE 7: with `notify_failure`
set the abort sends the reject for UE 7; with the flag clear it is silent. -/
theorem abort_notification_rule_witness :
    deref (w_running 1) (some 0) = some ⟨7, 0, emm_proc_identity_type_t.IMSI, 1⟩ ∧
    emm_ctx_get P0 (w_running 1) 7 = some { c0 with T3470 := ⟨3, 6⟩ } ∧
    (∃ w1, _identification_abort P0 (w_running 1) (some 0) = .ok (w1, 0) ∧
      w1.sapLog = [emm_sap_t.emm_reg emm_primitive_t.EMMREG_COMMON_PROC_REJ 7 none none]) ∧
    deref (w_running 0) (some 0) = some ⟨7, 0, emm_proc_identity_type_t.IMSI, 0⟩ ∧
    ∃ w1, _identification_abort P0 (w_running 0) (some 0) = .ok (w1, 0) ∧
      w1.sapLog = [] := by
  have hd : deref (w_running 0) (some 0) = some ⟨7, 0, emm_proc_identity_type_t.IMSI, 0⟩ := rfl
  have hd1 : deref (w_running 1) (some 0) = some ⟨7, 0, emm_proc_identity_type_t.IMSI, 1⟩ := rfl
  have hc : emm_ctx_get P0 (w_running 0) 7 = some { c0 with T3470 := ⟨3, 6⟩ } := rfl
  have hc1 : emm_ctx_get P0 (w_running 1) 7 = some { c0 with T3470 := ⟨3, 6⟩ } := rfl
  obtain ⟨w1, rc, h1, _, h3⟩ := abort_notification_rule P0 (w_running 0) 0
    ⟨7, 0, emm_proc_identity_type_t.IMSI, 0⟩ { c0 with T3470 := ⟨3, 6⟩ } hd hc
  obtain ⟨h4, h5⟩ := h3 rfl
  rw [h5] at h1
  obtain ⟨w2, rc2, g1, g2, _⟩ := abort_notification_rule P0 (w_running 1) 0
    ⟨7, 0, emm_proc_identity_type_t.IMSI, 1⟩ { c0 with T3470 := ⟨3, 6⟩ } hd1 hc1
  obtain ⟨g4, g5⟩ := g2 (by decide)
  rw [g5] at g1
  exact ⟨hd1, hc1, ⟨w2, g1, g4⟩, hd, w1, h1, h4⟩

/-! ## Completion -/

@[simp] theorem released_ctx (w : World) (ueid : Nat) : (released w ueid).ctx = w.ctx := by
  unfold released
  split <;> rfl

@[simp] theorem released_sapLog (w : World) (ueid : Nat) :
    (released w ueid).sapLog = w.sapLog := by
  unfold released
  split <;> rfl

@[simp] theorem released_timerLog (w : World) (ueid : Nat) :
    (released w ueid).timerLog = w.timerLog := by
  unfold released
  split <;> rfl

@[simp] theorem released_nalloc (w : World) (ueid : Nat) :
    (released w ueid).nalloc = w.nalloc := by
  unfold released
  split <;> rfl

@[simp] theorem released_conf (w : World) (ueid : Nat) :
    (released w ueid).conf_gummei = w.conf_gummei := by
  unfold released
  split <;> rfl

@[simp] theorem emm_ctx_get_released (E : Platform) (w : World) (ueid u : Nat) :
    emm_ctx_get E (released w ueid) u = emm_ctx_get E w u := by
  simp [emm_ctx_get]

theorem update_identity_world (E : Platform) (w : World) (c : emm_data_context_t)
    (imsi : Option imsi_t) (imei : Option imei_t) (tmsi : Option Nat) :
    (update_identity E w c imsi imei tmsi).1.ctx = w.ctx ∧
    (update_identity E w c imsi imei tmsi).1.sapLog = w.sapLog ∧
    (update_identity E w c imsi imei tmsi).1.timerLog = w.timerLog ∧
    (update_identity E w c imsi imei tmsi).1.heap = w.heap ∧
    (update_identity E w c imsi imei tmsi).1.registry = w.registry := by
  unfold update_identity malloc
  split <;> (try split) <;> cases E.malloc_ok w.nalloc <;> simp

theorem update_identity_frame (E : Platform) (w : World) (c : emm_data_context_t)
    (imsi : Option imsi_t) (imei : Option imei_t) (tmsi : Option Nat) :
    (update_identity E w c imsi imei tmsi).2.T3470 = c.T3470 ∧
    (update_identity E w c imsi imei tmsi).2.is_attached = c.is_attached ∧
    (update_identity E w c imsi imei tmsi).2.security = c.security := by
  unfold update_identity malloc
  split <;> (try split) <;> cases E.malloc_ok w.nalloc <;> simp

theorem update_identity_imsi (E : Platform) (w : World) (c : emm_data_context_t)
    (v : imsi_t) (imei : Option imei_t) (tmsi : Option Nat) :
    (update_identity E w c (some v) imei tmsi).2.imsi =
      (if c.imsi.isSome || E.malloc_ok w.nalloc then some v else none) ∧
    (update_identity E w c (some v) imei tmsi).2.imei = c.imei ∧
    (update_identity E w c (some v) imei tmsi).2.guti = c.guti := by
  unfold update_identity malloc
  cases hi : c.imsi <;> cases hm : E.malloc_ok w.nalloc <;> simp [hi, hm]

theorem update_identity_imei (E : Platform) (w : World) (c : emm_data_context_t)
    (v : imei_t) (tmsi : Option Nat) :
    (update_identity E w c none (some v) tmsi).2.imsi = c.imsi ∧
    (update_identity E w c none (some v) tmsi).2.guti = c.guti := by
  unfold update_identity malloc
  cases hi : c.imei <;> cases hm : E.malloc_ok w.nalloc <;> simp [hi, hm]

theorem update_identity_tmsi (E : Platform) (w : World) (c : emm_data_context_t)
    (t : Nat) :
    (update_identity E w c none none (some t)).2.imsi = c.imsi ∧
    (update_identity E w c none none (some t)).2.imei = c.imei := by
  unfold update_identity malloc
  cases hi : c.guti <;> cases hm : E.malloc_ok w.nalloc <;> simp [hi, hm]

theorem complete_eq_some (E : Platform) (w : World) (ueid : Nat)
    (imsi : Option imsi_t) (imei : Option imei_t) (tmsi : Option Nat)
    (c : emm_data_context_t)
    (hr : registry_sound w ueid) (hc : emm_ctx_get E w ueid = some c) :
    emm_proc_identification_complete E w ueid imsi imei tmsi =
      (let t := nas_timer_stop E (released w ueid) c.T3470.id
       let u := update_identity E t.1 { c with T3470 := { c.T3470 with id := t.2 } }
         imsi imei tmsi
       .ok (emm_sap_send E (emm_ctx_put u.1 ueid u.2)
         (complete_confirm ueid u.2.is_attached))) := by
  unfold emm_proc_identification_complete
  have hc1 : emm_ctx_get E (released w ueid) ueid = some c := by simpa using hc
  unfold released at hc1 ⊢
  cases hg : emm_proc_common_get_args w ueid with
  | none =>
    simp only [hg] at hc1
    simp only [hc1, complete_confirm]
  | some a =>
    simp only [hg] at hc1
    have hl := hr a hg
    obtain ⟨d, hd⟩ := Option.isSome_iff_exists.mp hl
    simp only [free_ok w a d hd, hc1, complete_confirm]

theorem complete_eq_none (E : Platform) (w : World) (ueid : Nat)
    (imsi : Option imsi_t) (imei : Option imei_t) (tmsi : Option Nat)
    (hr : registry_sound w ueid) (hc : emm_ctx_get E w ueid = none) :
    emm_proc_identification_complete E w ueid imsi imei tmsi =
      .ok (emm_sap_send E (released w ueid) (complete_reject ueid)) := by
  unfold emm_proc_identification_complete
  have hc1 : emm_ctx_get E (released w ueid) ueid = none := by simpa using hc
  unfold released at hc1 ⊢
  cases hg : emm_proc_common_get_args w ueid with
  | none =>
    simp only [hg] at hc1
    simp only [hc1, complete_reject]
  | some a =>
    simp only [hg] at hc1
    have hl := hr a hg
    obtain ⟨d, hd⟩ := Option.isSome_iff_exists.mp hl
    simp only [free_ok w a d hd, hc1, complete_reject]

theorem emm_ctx_get_congr (E : Platform) (w1 w2 : World) (u : Nat)
    (h : w1.ctx = w2.ctx) : emm_ctx_get E w1 u = emm_ctx_get E w2 u := by
  simp [emm_ctx_get, h]

theorem complete_ctx_after (E : Platform) (w : World) (ueid : Nat)
    (imsi : Option imsi_t) (imei : Option imei_t) (tmsi : Option Nat)
    (c : emm_data_context_t)
    (hr : registry_sound w ueid) (hc : emm_ctx_get E w ueid = some c) :
    ∃ w1 c1, emm_proc_identification_complete E w ueid imsi imei tmsi =
        .ok (w1, E.sap_status w.sapLog (complete_confirm ueid c.is_attached)) ∧
      w1.sapLog = w.sapLog ++ [complete_confirm ueid c.is_attached] ∧
      emm_ctx_get E w1 ueid = some c1 ∧
      c1 = (update_identity E (nas_timer_stop E (released w ueid) c.T3470.id).1
        { c with T3470 := { c.T3470 with id := E.timer_stop w.timerLog c.T3470.id } }
        imsi imei tmsi).2 := by
  have ht2 : (nas_timer_stop E (released w ueid) c.T3470.id).2 =
      E.timer_stop w.timerLog c.T3470.id := by
    simp [nas_timer_stop]
  rw [complete_eq_some E w ueid imsi imei tmsi c hr hc]
  simp only [ht2]
  have hw := update_identity_world E (nas_timer_stop E (released w ueid) c.T3470.id).1
    { c with T3470 := { c.T3470 with id := E.timer_stop w.timerLog c.T3470.id } }
    imsi imei tmsi
  have hf := update_identity_frame E (nas_timer_stop E (released w ueid) c.T3470.id).1
    { c with T3470 := { c.T3470 with id := E.timer_stop w.timerLog c.T3470.id } }
    imsi imei tmsi
  have hts : (nas_timer_stop E (released w ueid) c.T3470.id).1.sapLog = w.sapLog := by
    simp [nas_timer_stop]
  have htc : emm_ctx_get E (nas_timer_stop E (released w ueid) c.T3470.id).1 ueid = some c := by
    simpa using hc
  generalize update_identity E (nas_timer_stop E (released w ueid) c.T3470.id).1
    { c with T3470 := { c.T3470 with id := E.timer_stop w.timerLog c.T3470.id } }
    imsi imei tmsi = U at hw hf ⊢
  generalize (nas_timer_stop E (released w ueid) c.T3470.id).1 = T at hw hts htc
  obtain ⟨hw1, hw2, -⟩ := hw
  obtain ⟨-, hf2, -⟩ := hf
  have hg : emm_ctx_get E U.1 ueid = some c := by
    rw [emm_ctx_get_congr E U.1 T ueid hw1]
    exact htc
  have hsl : (emm_ctx_put U.1 ueid U.2).sapLog = w.sapLog := by
    show U.1.sapLog = w.sapLog
    rw [hw2, hts]
  refine ⟨(emm_sap_send E (emm_ctx_put U.1 ueid U.2) (complete_confirm ueid U.2.is_attached)).1,
    U.2, ?_, ?_, ?_, rfl⟩
  · simp only [emm_sap_send, hsl, hf2]
  · simp only [emm_sap_send, hsl, hf2]
  · rw [emm_ctx_get_sap]
    exact emm_ctx_get_put_same E _ ueid c _ hg

/-- C3. When `nas_timer_stop` returns the inactive sentinel, the T3470 handle
of the UE context equals `NAS_TIMER_INACTIVE_ID` after
`emm_proc_identification_complete` on a UE whose context exists, and after
`_identification_abort` on a valid procedure context whose UE context exists,
whatever the handle was before. -/
theorem timer_hygiene (E : Platform) (w : World)
    (hstop : ∀ l i, E.timer_stop l i = E.NAS_TIMER_INACTIVE_ID) :
    (∀ ueid imsi imei tmsi c, registry_sound w ueid → emm_ctx_get E w ueid = some c →
      ∃ r c1, emm_proc_identification_complete E w ueid imsi imei tmsi = .ok r ∧
        emm_ctx_get E r.1 ueid = some c1 ∧ c1.T3470.id = E.NAS_TIMER_INACTIVE_ID) ∧
    (∀ a d c, deref w (some a) = some d → emm_ctx_get E w d.ueid = some c →
      ∃ r c1, _identification_abort E w (some a) = .ok r ∧
        emm_ctx_get E r.1 d.ueid = some c1 ∧ c1.T3470.id = E.NAS_TIMER_INACTIVE_ID) := by
  constructor
  · intro ueid imsi imei tmsi c hr hc
    obtain ⟨w1, c1, h1, _, h3, h4⟩ := complete_ctx_after E w ueid imsi imei tmsi c hr hc
    refine ⟨_, c1, h1, h3, ?_⟩
    rw [h4, (update_identity_frame E _ _ imsi imei tmsi).1]
    exact hstop _ _
  · intro a d c hd hc
    rw [abort_eq E w a d c hd hc]
    by_cases hn : d.notify_failure = 0 <;> by_cases hi : c.T3470.id = E.NAS_TIMER_INACTIVE_ID
    · simp only [hn, hi, ne_eq, not_true_eq_false, if_false]
      exact ⟨_, c, rfl, hc, hi⟩
    · simp only [hn, hi, ne_eq, not_true_eq_false, not_false_eq_true, if_true, if_false]
      refine ⟨_, _, rfl, emm_ctx_get_put_same E _ _ c _ hc, ?_⟩
      exact hstop _ _
    · simp only [hn, hi, ne_eq, not_true_eq_false, not_false_eq_true, if_true, if_false]
      exact ⟨_, c, rfl, hc, hi⟩
    · simp only [hn, hi, ne_eq, not_false_eq_true, if_true]
      refine ⟨_, _, rfl, emm_ctx_get_put_same E _ _ c _ hc, ?_⟩
      exact hstop _ _

theorem registry_sound_empty (w : World) (ueid : Nat) (h : w.registry ueid = none) :
    registry_sound w ueid := by
  intro a ha
  simp [emm_proc_common_get_args, h] at ha

theorem w_running_sound (n : Int) : registry_sound (w_running n) 7 := by
  intro a ha
  have h0 : emm_proc_common_get_args (w_running n) 7 = some 0 := rfl
  rw [h0] at ha
  cases ha
  rfl

/-- Instance of C3: completion and abort on the running procedure of UE 7,
whose handle is 3. -/
theorem timer_hygiene_witness :
    (∀ l i, P0.timer_stop l i = P0.NAS_TIMER_INACTIVE_ID) ∧
    (∃ r c1, emm_proc_identification_complete P0 (w_running 0) 7 (some imsi0) none none = .ok r ∧
      emm_ctx_get P0 r.1 7 = some c1 ∧ c1.T3470.id = -1) ∧
    (∃ r c1, _identification_abort P0 (w_running 0) (some 0) = .ok r ∧
      emm_ctx_get P0 r.1 7 = some c1 ∧ c1.T3470.id = -1) := by
  have h := timer_hygiene P0 (w_running 0) (fun _ _ => rfl)
  exact ⟨fun _ _ => rfl,
    h.1 7 (some imsi0) none none { c0 with T3470 := ⟨3, 6⟩ }
      (w_running_sound 0) rfl,
    h.2 0 ⟨7, 0, emm_proc_identity_type_t.IMSI, 0⟩ { c0 with T3470 := ⟨3, 6⟩ } rfl rfl⟩

/-- C4, as amended. For a UE whose context exists and any IMSI `v`,
`emm_proc_identification_complete(ueid, v, NULL, NULL)` sends exactly one
primitive, `EMMREG_COMMON_PROC_CNF` carrying the UE id and the `is_attached`
value of the context, and returns the status of that send. The IMSI field
afterwards holds `v` when the field was allocated before the call or its
allocation succeeds; when it was `NULL` and the allocation fails it stays
`NULL`. -/
theorem complete_records_imsi (E : Platform) (w : World) (ueid : Nat) (v : imsi_t)
    (c : emm_data_context_t)
    (hr : registry_sound w ueid) (hc : emm_ctx_get E w ueid = some c) :
    ∃ w1 c1, emm_proc_identification_complete E w ueid (some v) none none =
        .ok (w1, E.sap_status w.sapLog (emm_sap_t.emm_reg
            emm_primitive_t.EMMREG_COMMON_PROC_CNF ueid (some (some ueid)) (some
            c.is_attached))) ∧
      w1.sapLog = w.sapLog ++ [emm_sap_t.emm_reg emm_primitive_t.EMMREG_COMMON_PROC_CNF ueid
          (some (some ueid)) (some c.is_attached)] ∧
      emm_ctx_get E w1 ueid = some c1 ∧
      c1.imsi = (if c.imsi.isSome || E.malloc_ok w.nalloc then some v else none) := by
  obtain ⟨w1, c1, h1, h2, h3, h4⟩ :=
    complete_ctx_after E w ueid (some v) none none c hr hc
  refine ⟨w1, c1, h1, h2, h3, ?_⟩
  rw [h4, (update_identity_imsi E _ _ v none none).1]
  simp [nas_timer_stop]

/-- Instance of C4 (amended): the happy path of UE 7. -/
theorem complete_records_imsi_witness :
    registry_sound (w_running 0) 7 ∧
    emm_ctx_get P0 (w_running 0) 7 = some { c0 with T3470 := ⟨3, 6⟩ } ∧
    ∃ w1 c1, emm_proc_identification_complete P0 (w_running 0) 7 (some imsi0) none none =
        .ok (w1, 0) ∧
      w1.sapLog = [emm_sap_t.emm_reg emm_primitive_t.EMMREG_COMMON_PROC_CNF 7 (some (some 7))
          (some 1)] ∧
      emm_ctx_get P0 w1 7 = some c1 ∧ c1.imsi = some imsi0 := by
  have hr : registry_sound (w_running 0) 7 := w_running_sound 0
  have hc : emm_ctx_get P0 (w_running 0) 7 = some { c0 with T3470 := ⟨3, 6⟩ } := rfl
  obtain ⟨w1, c1, h1, h2, h3, h4⟩ :=
    complete_records_imsi P0 (w_running 0) 7 imsi0 { c0 with T3470 := ⟨3, 6⟩ } hr hc
  exact ⟨hr, hc, w1, c1, h1, h2, h3, h4⟩

/-- C4 fails as stated: in the state `w0` the IMSI field of UE 7 is `NULL`; when
`malloc` returns `NULL` the call with `imsi0` sends `EMMREG_COMMON_PROC_CNF`
and returns its status, but the IMSI field is still `NULL`. -/
theorem complete_imsi_allocation_failure :
    (w0.ctx 7).map (fun c => c.imsi) = some none ∧
    (emm_proc_identification_complete P_no_memory w0 7 (some imsi0) none none).map
        (fun r => ((r.1.ctx 7).map (fun c => c.imsi), r.1.sapLog, r.2)) =
      .ok (some none, [emm_sap_t.emm_reg emm_primitive_t.EMMREG_COMMON_PROC_CNF 7 (some (some
          7)) (some 1)], 0) := by
  constructor <;> rfl

/-- C5. On an existing UE context, a completion that supplies an IMSI leaves
the IMEI and GUTI fields as they were, whatever IMEI or TMSI argument
accompanies it; a completion with only an IMEI leaves IMSI and GUTI as they
were; a completion with only a TMSI leaves IMSI and IMEI as they were. -/
theorem complete_identity_frame (E : Platform) (w : World) (ueid : Nat)
    (c : emm_data_context_t)
    (hr : registry_sound w ueid) (hc : emm_ctx_get E w ueid = some c) :
    (∀ v imei tmsi, ∃ r c1,
      emm_proc_identification_complete E w ueid (some v) imei tmsi = .ok r ∧
      emm_ctx_get E r.1 ueid = some c1 ∧ c1.imei = c.imei ∧ c1.guti = c.guti) ∧
    (∀ v, ∃ r c1,
      emm_proc_identification_complete E w ueid none (some v) none = .ok r ∧
      emm_ctx_get E r.1 ueid = some c1 ∧ c1.imsi = c.imsi ∧ c1.guti = c.guti) ∧
    (∀ t, ∃ r c1,
      emm_proc_identification_complete E w ueid none none (some t) = .ok r ∧
      emm_ctx_get E r.1 ueid = some c1 ∧ c1.imsi = c.imsi ∧ c1.imei = c.imei) := by
  refine ⟨?_, ?_, ?_⟩
  · intro v imei tmsi
    obtain ⟨w1, c1, h1, _, h3, h4⟩ :=
      complete_ctx_after E w ueid (some v) imei tmsi c hr hc
    refine ⟨_, c1, h1, h3, ?_, ?_⟩
    · rw [h4, (update_identity_imsi E _ _ v imei tmsi).2.1]
    · rw [h4, (update_identity_imsi E _ _ v imei tmsi).2.2]
  · intro v
    obtain ⟨w1, c1, h1, _, h3, h4⟩ :=
      complete_ctx_after E w ueid none (some v) none c hr hc
    refine ⟨_, c1, h1, h3, ?_, ?_⟩
    · rw [h4, (update_identity_imei E _ _ v none).1]
    · rw [h4, (update_identity_imei E _ _ v none).2]
  · intro t
    obtain ⟨w1, c1, h1, _, h3, h4⟩ :=
      complete_ctx_after E w ueid none none (some t) c hr hc
    refine ⟨_, c1, h1, h3, ?_, ?_⟩
    · rw [h4, (update_identity_tmsi E _ _ t).1]
    · rw [h4, (update_identity_tmsi E _ _ t).2]

/-- Instance of C5 on a context of UE 7 that already holds an IMEI and a
GUTI: an IMSI completion accompanied by another IMEI and a TMSI keeps both. -/
theorem complete_identity_frame_witness :
    registry_sound w_identified 7 ∧
    emm_ctx_get P0 w_identified 7 = some c_identified ∧
    ∃ r c1, emm_proc_identification_complete P0 w_identified 7 (some imsi0)
        (some ⟨[9, 9]⟩) (some 5) = .ok r ∧
      emm_ctx_get P0 r.1 7 = some c1 ∧
      c1.imei = some ⟨[3, 5]⟩ ∧ c1.guti = some ⟨⟨20893, 4, 1⟩, 77⟩ := by
  have hr : registry_sound w_identified 7 := registry_sound_empty _ _ rfl
  have hc : emm_ctx_get P0 w_identified 7 = some c_identified := rfl
  exact ⟨hr, hc, (complete_identity_frame P0 w_identified 7 c_identified hr hc).1
    imsi0 (some ⟨[9, 9]⟩) (some 5)⟩

/-- C6. For a UE id without a UE context and any identity arguments,
`emm_proc_identification_complete` sends exactly one primitive,
`EMMREG_COMMON_PROC_REJ` for that UE id, returns the status of that send, and
leaves the whole UE context store (identity fields and timer handles) and the
timer service untouched. -/
theorem complete_rejects_without_context (E : Platform) (w : World) (ueid : Nat)
    (imsi : Option imsi_t) (imei : Option imei_t) (tmsi : Option Nat)
    (hr : registry_sound w ueid) (hc : emm_ctx_get E w ueid = none) :
    ∃ w1, emm_proc_identification_complete E w ueid imsi imei tmsi =
        .ok (w1, E.sap_status w.sapLog (emm_sap_t.emm_reg
            emm_primitive_t.EMMREG_COMMON_PROC_REJ ueid (some none) none)) ∧
      w1.sapLog = w.sapLog ++ [emm_sap_t.emm_reg emm_primitive_t.EMMREG_COMMON_PROC_REJ ueid
          (some none) none] ∧
      w1.ctx = w.ctx ∧ w1.timerLog = w.timerLog := by
  rw [complete_eq_none E w ueid imsi imei tmsi hr hc]
  refine ⟨(emm_sap_send E (released w ueid) (complete_reject ueid)).1, ?_, ?_, ?_, ?_⟩
  · simp only [emm_sap_send, released_sapLog, complete_reject]
  · simp only [emm_sap_send, released_sapLog, complete_reject]
  · simp only [emm_sap_send, released_ctx]
  · simp only [emm_sap_send, released_timerLog]

/-- Instance of C6: UE 999 has no context in `w0`. -/
theorem complete_rejects_without_context_witness :
    registry_sound w0 999 ∧ emm_ctx_get P0 w0 999 = none ∧
    ∃ w1, emm_proc_identification_complete P0 w0 999 (some imsi0) none none = .ok (w1, 0) ∧
      w1.sapLog = [emm_sap_t.emm_reg emm_primitive_t.EMMREG_COMMON_PROC_REJ 999 (some none)
          none] ∧ w1.ctx = w0.ctx ∧ w1.timerLog = [] := by
  have hr : registry_sound w0 999 := registry_sound_empty _ _ rfl
  have hc : emm_ctx_get P0 w0 999 = none := rfl
  exact ⟨hr, hc, complete_rejects_without_context P0 w0 999 (some imsi0) none none hr hc⟩

/-! ## Start -/

theorem malloc_data_some (E : Platform) (w : World) (a : Nat)
    (h : (malloc_data E w).2 = some a) :
    a = w.heap.length ∧
    (malloc_data E w).1.heap =
      w.heap ++ [some ⟨0, 0, emm_proc_identity_type_t.NOT_AVAILABLE, 0⟩] ∧
    (malloc_data E w).1.ctx = w.ctx ∧
    (malloc_data E w).1.sapLog = w.sapLog ∧
    (malloc_data E w).1.timerLog = w.timerLog ∧
    (malloc_data E w).1.registry = w.registry := by
  unfold malloc_data malloc at h ⊢
  cases hm : E.malloc_ok w.nalloc
  · simp [hm] at h
  · simp only [hm, if_true, Option.some.injEq] at h
    simp only [hm, if_true]
    exact ⟨h.symm, trivial, trivial, trivial, trivial, trivial⟩

theorem malloc_data_none (E : Platform) (w : World)
    (h : (malloc_data E w).2 = none) :
    (malloc_data E w).1.heap = w.heap ∧
    (malloc_data E w).1.ctx = w.ctx ∧
    (malloc_data E w).1.sapLog = w.sapLog ∧
    (malloc_data E w).1.timerLog = w.timerLog ∧
    (malloc_data E w).1.registry = w.registry := by
  unfold malloc_data malloc at h ⊢
  cases hm : E.malloc_ok w.nalloc
  · simp [hm]
  · simp [hm] at h

theorem initialize_frame (E : Platform) (w : World) (ueid s r f : Nat)
    (args : Option Nat) :
    ( emm_proc_common_initialize E w ueid s r f args).1.heap = w.heap ∧
    ( emm_proc_common_initialize E w ueid s r f args).1.ctx = w.ctx ∧
    ( emm_proc_common_initialize E w ueid s r f args).1.sapLog = w.sapLog ∧
    ( emm_proc_common_initialize E w ueid s r f args).1.timerLog = w.timerLog := by
  unfold emm_proc_common_initialize malloc
  cases (w.registry ueid).isSome <;> cases E.malloc_ok w.nalloc <;> simp

theorem initialize_failed (E : Platform) (w : World) (ueid s r f : Nat)
    (args : Option Nat)
    (h : ( emm_proc_common_initialize E w ueid s r f args).2 ≠ E.RETURNok) :
    ( emm_proc_common_initialize E w ueid s r f args).1.registry = w.registry := by
  unfold emm_proc_common_initialize malloc at h ⊢
  cases hr : (w.registry ueid).isSome <;> cases hm : E.malloc_ok w.nalloc <;>
    simp [hr, hm] at h ⊢

theorem initialize_succeeded (E : Platform) (w : World) (ueid s r f : Nat)
    (args : Option Nat)
    (h : ( emm_proc_common_initialize E w ueid s r f args).2 = E.RETURNok) :
    emm_proc_common_get_args ( emm_proc_common_initialize E w ueid s r f args).1 ueid = args := by
  have hne := E.ok_ne_error
  unfold emm_proc_common_initialize malloc at h ⊢
  cases hr : (w.registry ueid).isSome <;> cases hm : E.malloc_ok w.nalloc <;>
    simp [hr, hm] at h ⊢
  · exact absurd h.symm hne
  · simp [emm_proc_common_get_args]
  · exact absurd h.symm hne
  · exact absurd h.symm hne

theorem deref_append_freed (w w1 : World) (x : identification_data_t)
    (h : w1.heap = w.heap ++ [some x]) (p : Option Nat) :
    deref { w1 with heap := w1.heap.set w.heap.length none } p = deref w p := by
  cases p with
  | none => rfl
  | some q =>
    simp only [deref, h]
    rcases Nat.lt_trichotomy q w.heap.length with hq | hq | hq
    · simp [List.getElem?_set, List.getElem?_append, hq, Nat.ne_of_gt hq]
    · subst hq
      simp [List.getElem?_set]
    · have h1 : w.heap.length ≤ q := Nat.le_of_lt hq
      have h2 : ((w.heap ++ [some x]).set w.heap.length none).length ≤ q := by
        simp
        omega
      rw [List.getElem?_eq_none h1, List.getElem?_eq_none h2]

/-- C8. Whenever the allocation of the procedure context fails or
`emm_proc_common_initialize` does not return `RETURNok`,
`emm_proc_identification` returns `RETURNerror`; no primitive has been sent
(neither an identity request nor `EMMREG_COMMON_PROC_REQ`), no timer operation
has been performed, the UE context store (T3470 handles included) and the
registry are as before, and no procedure context is left allocated. -/
theorem start_failure_is_atomic (E : Platform) (w : World) (ueid : Nat)
    (emm_ctx : Option Nat) (type : emm_proc_identity_type_t) (s r f : Nat)
    (h : (malloc_data E w).2 = none ∨
      ∃ a, (malloc_data E w).2 = some a ∧
        ( emm_proc_common_initialize E (malloc_data E w).1 ueid s r f (some a)).2 ≠
          E.RETURNok) :
    ∃ w1, emm_proc_identification E w ueid emm_ctx type s r f = .ok (w1, E.RETURNerror) ∧
      w1.sapLog = w.sapLog ∧ w1.timerLog = w.timerLog ∧ w1.ctx = w.ctx ∧
      w1.registry = w.registry ∧ ∀ p, deref w1 p = deref w p := by
  rcases h with h | ⟨a, hm, hi⟩
  · obtain ⟨h1, h2, h3, h4, h5⟩ := malloc_data_none E w h
    refine ⟨(malloc_data E w).1, ?_, h3, h4, h2, h5, ?_⟩
    · simp only [emm_proc_identification, h]
    · intro p
      cases p with
      | none => rfl
      | some q => simp only [deref, h1]
  · obtain ⟨ha, h1, h2, h3, h4, h5⟩ := malloc_data_some E w a hm
    obtain ⟨i1, i2, i3, i4⟩ :=
      initialize_frame E (malloc_data E w).1 ueid s r f (some a)
    have i5 := initialize_failed E (malloc_data E w).1 ueid s r f (some a) hi
    have hheap : ( emm_proc_common_initialize E (malloc_data E w).1 ueid s r f (some a)).1.heap =
        w.heap ++ [some ⟨0, 0, emm_proc_identity_type_t.NOT_AVAILABLE, 0⟩] := by
      rw [i1, h1]
    have hlive : deref ( emm_proc_common_initialize E (malloc_data E w).1 ueid s r f (some a)).1
        (some a) = some ⟨0, 0, emm_proc_identity_type_t.NOT_AVAILABLE, 0⟩ := by
      simp only [deref, hheap]
      simp [ha]
    refine ⟨{ ( emm_proc_common_initialize E (malloc_data E w).1 ueid s r f (some a)).1 with
        heap := ( emm_proc_common_initialize E (malloc_data E w).1 ueid s r f (some a)).1.heap.set
          a none }, ?_, ?_, ?_, ?_, ?_, ?_⟩
    · simp only [emm_proc_identification, hm, hi, ne_eq, not_false_eq_true, if_true,
        free_ok _ a _ hlive]
    · show ( emm_proc_common_initialize E (malloc_data E w).1 ueid s r f (some a)).1.sapLog = _
      rw [i3, h3]
    · show ( emm_proc_common_initialize E (malloc_data E w).1 ueid s r f (some a)).1.timerLog = _
      rw [i4, h4]
    · show ( emm_proc_common_initialize E (malloc_data E w).1 ueid s r f (some a)).1.ctx = _
      rw [i2, h2]
    · show ( emm_proc_common_initialize E (malloc_data E w).1 ueid s r f (some a)).1.registry = _
      rw [i5, h5]
    · intro p
      have hp := deref_append_freed w _ _ hheap p
      rw [← ha] at hp
      exact hp

/-- Instances of C8: on `P_no_memory` the allocation of the context fails; in
the state `w_running 0` UE 7 is already registered, so the registration fails. -/
theorem start_failure_is_atomic_witness :
    (malloc_data P_no_memory w0).2 = none ∧
    (∃ w1, emm_proc_identification P_no_memory w0 7 (some 7)
        emm_proc_identity_type_t.IMSI 1 2 3 = .ok (w1, -1) ∧
      w1.sapLog = [] ∧ w1.timerLog = [] ∧ w1.ctx = w0.ctx ∧
      w1.registry = w0.registry ∧ ∀ p, deref w1 p = deref w0 p) ∧
    (∃ w1, emm_proc_identification P0 (w_running 0) 7 (some 7)
        emm_proc_identity_type_t.IMEI 4 5 6 = .ok (w1, -1) ∧
      w1.sapLog = [] ∧ w1.timerLog = [] ∧ w1.ctx = (w_running 0).ctx ∧
      w1.registry = (w_running 0).registry ∧ ∀ p, deref w1 p = deref (w_running 0) p) :=
  ⟨rfl,
    start_failure_is_atomic P_no_memory w0 7 (some 7)
      emm_proc_identity_type_t.IMSI 1 2 3 (Or.inl rfl),
    start_failure_is_atomic P0 (w_running 0) 7 (some 7)
      emm_proc_identity_type_t.IMEI 4 5 6 (Or.inr ⟨1, rfl, by decide⟩)⟩

theorem request_effect (E : Platform) (w : World) (data : Option Nat)
    (d : identification_data_t) (c : emm_data_context_t)
    (hd : deref w data = some d) (hc : emm_ctx_get E w d.ueid = some c) :
    ∃ w1 c1, _identification_request E w data =
        .ok (w1, E.sap_status w.sapLog (identity_request E d c)) ∧
      w1.sapLog = w.sapLog ++ [identity_request E d c] ∧
      (∀ p, deref w1 p = deref w p) ∧
      emm_ctx_get E w1 d.ueid = some c1 ∧ c1.security = c.security ∧
      w1.registry = w.registry := by
  rw [request_eq E w data d c hd hc]
  by_cases hs : (emm_sap_send E w (identity_request E d c)).2 = E.RETURNerror
  · simp only [hs, ne_eq, not_true_eq_false, if_false]
    exact ⟨(emm_sap_send E w (identity_request E d c)).1, c, rfl, rfl, fun _ => rfl, hc,
      rfl, rfl⟩
  · by_cases hi : c.T3470.id = E.NAS_TIMER_INACTIVE_ID
    · simp only [hs, hi, ne_eq, not_false_eq_true, not_true_eq_false, if_true, if_false]
      exact ⟨_, _, rfl, rfl, fun _ => rfl, emm_ctx_get_put_same E _ _ c _ hc, rfl, rfl⟩
    · simp only [hs, hi, ne_eq, not_false_eq_true, if_true]
      exact ⟨_, _, rfl, rfl, fun _ => rfl, emm_ctx_get_put_same E _ _ c _ hc, rfl, rfl⟩

theorem prepared_facts (E : Platform) (w : World) (ueid : Nat)
    (type : emm_proc_identity_type_t) (s r f a : Nat) (c : emm_data_context_t)
    (hm : (malloc_data E w).2 = some a)
    (hc : emm_ctx_get E w ueid = some c) :
    deref (prepared E w ueid type s r f a) (some a) = some ⟨ueid, 0, type, FALSE⟩ ∧
    emm_ctx_get E (prepared E w ueid type s r f a) ueid = some c ∧
    (prepared E w ueid type s r f a).sapLog = w.sapLog ∧
    (prepared E w ueid type s r f a).timerLog = w.timerLog ∧
    (prepared E w ueid type s r f a).registry =
      ( emm_proc_common_initialize E (malloc_data E w).1 ueid s r f (some a)).1.registry := by
  obtain ⟨ha, h1, h2, h3, h4, _⟩ := malloc_data_some E w a hm
  obtain ⟨i1, i2, i3, i4⟩ :=
    initialize_frame E (malloc_data E w).1 ueid s r f (some a)
  have hlive : deref ( emm_proc_common_initialize E (malloc_data E w).1 ueid s r f (some a)).1
      (some a) = some ⟨0, 0, emm_proc_identity_type_t.NOT_AVAILABLE, 0⟩ := by
    simp only [deref, i1, h1]
    simp [ha]
  refine ⟨deref_poke_same _ a _ _ hlive, ?_, ?_, ?_, rfl⟩
  · rw [← hc]
    exact emm_ctx_get_congr E _ _ ueid (by show _ = w.ctx; rw [← h2, ← i2]; rfl)
  · show ( emm_proc_common_initialize E (malloc_data E w).1 ueid s r f (some a)).1.sapLog = _
    rw [i3, h3]
  · show ( emm_proc_common_initialize E (malloc_data E w).1 ueid s r f (some a)).1.timerLog = _
    rw [i4, h4]

theorem start_eq (E : Platform) (w : World) (ueid : Nat) (emm_ctx : Option Nat)
    (type : emm_proc_identity_type_t) (s r f a : Nat)
    (hm : (malloc_data E w).2 = some a)
    (hi : ( emm_proc_common_initialize E (malloc_data E w).1 ueid s r f (some a)).2 =
      E.RETURNok) :
    emm_proc_identification E w ueid emm_ctx type s r f =
      (match _identification_request E (prepared E w ueid type s r f a) (some a) with
       | .error e => .error e
       | .ok x =>
         if x.2 ≠ E.RETURNerror then .ok (emm_sap_send E x.1 (started ueid emm_ctx))
         else .ok x) := by
  simp only [emm_proc_identification, hm, hi, ne_eq, not_true_eq_false, if_false, prepared,
    started]

/-- C9, as amended. When the procedure context has been allocated and
registered (and the UE context exists), `emm_proc_identification` sends
`EMMREG_COMMON_PROC_REQ` for the UE right after the identity request exactly
when the send of the identity request did not return `RETURNerror`; when that
send returned `RETURNerror`, no `EMMREG_COMMON_PROC_REQ` is sent and
`RETURNerror` is returned. -/
theorem start_notification (E : Platform) (w : World) (ueid : Nat)
    (emm_ctx : Option Nat) (type : emm_proc_identity_type_t) (s r f a : Nat)
    (c : emm_data_context_t)
    (hm : (malloc_data E w).2 = some a)
    (hi : ( emm_proc_common_initialize E (malloc_data E w).1 ueid s r f (some a)).2 =
      E.RETURNok)
    (hc : emm_ctx_get E w ueid = some c) :
    (E.sap_status w.sapLog (emm_sap_t.emm_as_security emm_primitive_t.EMMAS_SECURITY_REQ none
        ueid E.EMM_AS_MSG_TYPE_IDENT type (E.security_data c.security FALSE TRUE)) ≠
        E.RETURNerror →
      ∃ w1, emm_proc_identification E w ueid emm_ctx type s r f =
          .ok (w1, E.sap_status
            (w.sapLog ++ [emm_sap_t.emm_as_security emm_primitive_t.EMMAS_SECURITY_REQ none
                ueid E.EMM_AS_MSG_TYPE_IDENT type (E.security_data c.security FALSE TRUE)])
            (emm_sap_t.emm_reg emm_primitive_t.EMMREG_COMMON_PROC_REQ ueid (some emm_ctx)
                none)) ∧
        w1.sapLog = w.sapLog ++
          [emm_sap_t.emm_as_security emm_primitive_t.EMMAS_SECURITY_REQ none ueid
              E.EMM_AS_MSG_TYPE_IDENT type (E.security_data c.security FALSE TRUE),
              emm_sap_t.emm_reg emm_primitive_t.EMMREG_COMMON_PROC_REQ ueid (some emm_ctx)
              none]) ∧
    (E.sap_status w.sapLog (emm_sap_t.emm_as_security emm_primitive_t.EMMAS_SECURITY_REQ none
        ueid E.EMM_AS_MSG_TYPE_IDENT type (E.security_data c.security FALSE TRUE)) =
        E.RETURNerror →
      ∃ w1, emm_proc_identification E w ueid emm_ctx type s r f = .ok (w1, E.RETURNerror) ∧
        w1.sapLog = w.sapLog ++ [emm_sap_t.emm_as_security emm_primitive_t.EMMAS_SECURITY_REQ
            none ueid E.EMM_AS_MSG_TYPE_IDENT type (E.security_data c.security FALSE TRUE)]) := by
  obtain ⟨p1, p2, p3, -, -⟩ := prepared_facts E w ueid type s r f a c hm hc
  obtain ⟨w1, c1, h1, h2, -, -, -, -⟩ :=
    request_effect E (prepared E w ueid type s r f a) (some a) ⟨ueid, 0, type, FALSE⟩ c p1 p2
  rw [p3] at h1 h2
  simp only [identity_request] at h1 h2
  rw [start_eq E w ueid emm_ctx type s r f a hm hi, h1]
  constructor
  · intro hs
    simp only [hs, ne_eq, not_false_eq_true, if_true]
    refine ⟨(emm_sap_send E w1 (started ueid emm_ctx)).1, ?_, ?_⟩
    · simp only [emm_sap_send, h2, started]
    · simp only [emm_sap_send, h2, started, List.append_assoc, List.singleton_append]
  · intro hs
    simp only [hs, ne_eq, not_true_eq_false, if_false]
    exact ⟨w1, rfl, h2⟩

/-- Instance of C9 (amended): a start for UE 7 on the platform `P0`. -/
theorem start_notification_witness :
    (malloc_data P0 w0).2 = some 0 ∧
    ( emm_proc_common_initialize P0 (malloc_data P0 w0).1 7 1 2 3 (some 0)).2 = P0.RETURNok ∧
    emm_ctx_get P0 w0 7 = some c0 ∧
    ∃ w1, emm_proc_identification P0 w0 7 (some 7) emm_proc_identity_type_t.IMSI 1 2 3 =
        .ok (w1, 0) ∧
      w1.sapLog = [emm_sap_t.emm_as_security emm_primitive_t.EMMAS_SECURITY_REQ none 7
          P0.EMM_AS_MSG_TYPE_IDENT emm_proc_identity_type_t.IMSI (P0.security_data c0.security
          FALSE TRUE),
        (emm_sap_t.emm_reg emm_primitive_t.EMMREG_COMMON_PROC_REQ 7 (some (some 7)) none)] :=
  ⟨rfl, rfl, rfl,
    (start_notification P0 w0 7 (some 7) emm_proc_identity_type_t.IMSI 1 2 3 0 c0
      rfl rfl rfl).1 (by decide)⟩

/-- C9 fails as stated: on `P_sap_fails` the procedure context of UE 7 is
allocated and registered, the send of the identity request returns
`RETURNerror`, and `emm_proc_identification` returns `RETURNerror` having
sent the identity request only, without `EMMREG_COMMON_PROC_REQ`. -/
theorem start_without_notification :
    (malloc_data P_sap_fails w0).2 = some 0 ∧
    ( emm_proc_common_initialize P_sap_fails (malloc_data P_sap_fails w0).1 7 1 2 3
      (some 0)).2 = P_sap_fails.RETURNok ∧
    (emm_proc_identification P_sap_fails w0 7 (some 7) emm_proc_identity_type_t.IMSI
        1 2 3).map (fun x => (x.1.sapLog, x.2)) =
      .ok ([emm_sap_t.emm_as_security emm_primitive_t.EMMAS_SECURITY_REQ none 7
          P_sap_fails.EMM_AS_MSG_TYPE_IDENT emm_proc_identity_type_t.IMSI
          (P_sap_fails.security_data c0.security FALSE TRUE)],
        P_sap_fails.RETURNerror) :=
  ⟨rfl, rfl, rfl⟩

/-! ## Expiry of T3470 -/

theorem handler_resend (E : Platform) (w : World) (a : Nat)
    (d : identification_data_t) (c : emm_data_context_t)
    (hd : deref w (some a) = some d)
    (hlt : d.retransmission_count + 1 < IDENTIFICATION_COUNTER_MAX)
    (hc : emm_ctx_get E w d.ueid = some c) :
    ∃ w1 c1, _identification_t3470_handler E w (some a) = .ok w1 ∧
      w1.sapLog = w.sapLog ++ [identity_request E d c] ∧
      deref w1 (some a) =
        some { d with retransmission_count := d.retransmission_count + 1 } ∧
      emm_ctx_get E w1 d.ueid = some c1 ∧ c1.security = c.security ∧
      w1.registry = w.registry := by
  have hmod : (d.retransmission_count + 1) % 2 ^ 32 = d.retransmission_count + 1 := by
    apply Nat.mod_eq_of_lt
    unfold IDENTIFICATION_COUNTER_MAX at hlt
    omega
  have hp : deref (poke w a { d with retransmission_count := d.retransmission_count + 1 })
      (some a) = some { d with retransmission_count := d.retransmission_count + 1 } :=
    deref_poke_same w a d _ hd
  obtain ⟨w1, c1, h1, h2, h3, h4, h5, h6⟩ :=
    request_effect E (poke w a { d with retransmission_count := d.retransmission_count + 1 })
      (some a) { d with retransmission_count := d.retransmission_count + 1 } c hp hc
  refine ⟨w1, c1, ?_, h2, ?_, h4, h5, h6⟩
  · simp only [_identification_t3470_handler, hd, hmod, hlt, if_true, h1]
  · rw [h3, hp]

theorem handler_exhaust (E : Platform) (w : World) (a : Nat)
    (d : identification_data_t) (c : emm_data_context_t)
    (hd : deref w (some a) = some d)
    (hge : ¬ (d.retransmission_count + 1) % 2 ^ 32 < IDENTIFICATION_COUNTER_MAX)
    (hc : emm_ctx_get E w d.ueid = some c) :
    ∃ w1, _identification_t3470_handler E w (some a) = .ok w1 ∧
      w1.sapLog = w.sapLog ++ [abort_reject d.ueid] ∧
      deref w1 (some a) = none ∧
      w1.registry = w.registry := by
  have hp : deref (poke w a { d with
      retransmission_count := (d.retransmission_count + 1) % 2 ^ 32, notify_failure := TRUE })
      (some a) = some { d with
        retransmission_count := (d.retransmission_count + 1) % 2 ^ 32, notify_failure := TRUE } :=
    deref_poke_same w a d _ hd
  have hab := abort_eq E (poke w a { d with
      retransmission_count := (d.retransmission_count + 1) % 2 ^ 32, notify_failure := TRUE })
    a _ c hp hc
  have ht : (TRUE : Int) ≠ 0 := by decide
  simp only [_identification_t3470_handler, hd, hge, if_false, hab, ne_eq, ht,
    not_false_eq_true, if_true]
  by_cases hi : c.T3470.id = E.NAS_TIMER_INACTIVE_ID
  · simp only [hi, not_true_eq_false, if_false]
    refine ⟨_, rfl, rfl, ?_, rfl⟩
    rw [deref_sap]
    exact deref_freed _ a
  · simp only [hi, not_false_eq_true, if_true]
    refine ⟨_, rfl, rfl, ?_, rfl⟩
    rw [deref_sap]
    exact deref_freed _ a

theorem expiries_resend (E : Platform) (a ueid : Nat) (type : emm_proc_identity_type_t)
    (sec : Option Nat) (k : Nat) :
    ∀ (n : Nat) (w : World), n + k < IDENTIFICATION_COUNTER_MAX →
      deref w (some a) = some ⟨ueid, n, type, FALSE⟩ →
      (∃ c, emm_ctx_get E w ueid = some c ∧ c.security = sec) →
      ∃ w1, expiries E (some a) k w = .ok w1 ∧
        w1.sapLog = w.sapLog ++
          List.replicate k (emm_sap_t.emm_as_security emm_primitive_t.EMMAS_SECURITY_REQ none
            ueid E.EMM_AS_MSG_TYPE_IDENT type (E.security_data sec FALSE TRUE)) ∧
        deref w1 (some a) = some ⟨ueid, n + k, type, FALSE⟩ ∧
        (∃ c, emm_ctx_get E w1 ueid = some c ∧ c.security = sec) ∧
        w1.registry = w.registry := by
  induction k with
  | zero =>
    intro n w _ hd hc
    exact ⟨w, rfl, by simp, hd, hc, rfl⟩
  | succ k ih =>
    intro n w hlt hd hc
    obtain ⟨c, hc1, hc2⟩ := hc
    obtain ⟨w1, c1, h1, h2, h3, h4, h5, h6⟩ :=
      handler_resend E w a ⟨ueid, n, type, FALSE⟩ c hd (by show n + 1 < _; omega) hc1
    obtain ⟨w2, g1, g2, g3, g4, g5⟩ :=
      ih (n + 1) w1 (by omega) h3 ⟨c1, h4, by rw [h5, hc2]⟩
    refine ⟨w2, ?_, ?_, ?_, g4, by rw [g5, h6]⟩
    · simp only [expiries, h1, g1]
    · rw [g2, h2, List.replicate_succ, identity_request, hc2]
      simp
    · rw [g3]
      congr 2
      omega

theorem expiries_succ_last (E : Platform) (args : Option Nat) (k : Nat) :
    ∀ (w w1 : World), expiries E args k w = .ok w1 →
      expiries E args (k + 1) w = _identification_t3470_handler E w1 args := by
  induction k with
  | zero =>
    intro w w1 h
    simp only [expiries, Except.ok.injEq] at h
    subst h
    simp only [expiries]
    cases _identification_t3470_handler E w args <;> rfl
  | succ k ih =>
    intro w w1 h
    rw [expiries] at h ⊢
    cases hh : _identification_t3470_handler E w args with
    | error e => simp [hh] at h
    | ok w2 =>
      simp only [hh] at h ⊢
      exact ih w2 w1 h

theorem start_effect (E : Platform) (w : World) (ueid : Nat) (emm_ctx : Option Nat)
    (type : emm_proc_identity_type_t) (s r f a : Nat) (c : emm_data_context_t)
    (hm : (malloc_data E w).2 = some a)
    (hi : ( emm_proc_common_initialize E (malloc_data E w).1 ueid s r f (some a)).2 =
      E.RETURNok)
    (hc : emm_ctx_get E w ueid = some c)
    (hs : E.sap_status w.sapLog (identity_request E ⟨ueid, 0, type, FALSE⟩ c) ≠
      E.RETURNerror) :
    ∃ w1 c1, emm_proc_identification E w ueid emm_ctx type s r f =
        .ok (w1, E.sap_status (w.sapLog ++ [identity_request E ⟨ueid, 0, type, FALSE⟩ c])
          (started ueid emm_ctx)) ∧
      w1.sapLog = w.sapLog ++
        [identity_request E ⟨ueid, 0, type, FALSE⟩ c, started ueid emm_ctx] ∧
      deref w1 (some a) = some ⟨ueid, 0, type, FALSE⟩ ∧
      emm_ctx_get E w1 ueid = some c1 ∧ c1.security = c.security ∧
      emm_proc_common_get_args w1 ueid = some a := by
  obtain ⟨p1, p2, p3, -, p5⟩ := prepared_facts E w ueid type s r f a c hm hc
  obtain ⟨w1, c1, h1, h2, h3, h4, h5, h6⟩ :=
    request_effect E (prepared E w ueid type s r f a) (some a) ⟨ueid, 0, type, FALSE⟩ c p1 p2
  rw [p3] at h1 h2
  rw [start_eq E w ueid emm_ctx type s r f a hm hi, h1]
  simp only [hs, ne_eq, not_false_eq_true, if_true]
  refine ⟨(emm_sap_send E w1 (started ueid emm_ctx)).1, c1, ?_, ?_, ?_, ?_, h5, ?_⟩
  · simp only [emm_sap_send, h2]
  · simp only [emm_sap_send, h2, List.append_assoc, List.singleton_append]
  · rw [deref_sap, h3, p1]
  · rw [emm_ctx_get_sap]
    exact h4
  · have hreg := initialize_succeeded E (malloc_data E w).1 ueid s r f (some a) hi
    unfold emm_proc_common_get_args at hreg ⊢
    show (match w1.registry ueid with
      | none => none
      | some e => e.args) = some a
    rw [h6, p5]
    exact hreg

/-- C1. A run that starts with `emm_proc_identification` (context allocated
and registered, UE context present, every SAP send returning `RETURNok`) and
continues with consecutive T3470 expiries: the start sends the identity
request and `EMMREG_COMMON_PROC_REQ`; each of the expiries 1 to 4 sends exactly
one further identity request and leaves the context live with the counter
equal to the number of expiries and `notify_failure` clear; the 5th expiry
sends no identity request but exactly one `EMMREG_COMMON_PROC_REJ` and frees
the context, being the abort of the context with `notify_failure` set. The run
thus holds 5 identity requests in all. The statement does not depend on the
state of T3470 at the start. -/
theorem bounded_retry (E : Platform) (w : World) (ueid : Nat) (emm_ctx : Option Nat)
    (type : emm_proc_identity_type_t) (s r f a : Nat) (c : emm_data_context_t)
    (hm : (malloc_data E w).2 = some a)
    (hi : ( emm_proc_common_initialize E (malloc_data E w).1 ueid s r f (some a)).2 =
      E.RETURNok)
    (hc : emm_ctx_get E w ueid = some c)
    (hsend : ∀ l m, E.sap_status l m = E.RETURNok) :
    ∃ w1, emm_proc_identification E w ueid emm_ctx type s r f = .ok (w1, E.RETURNok) ∧
      w1.sapLog = w.sapLog ++
        [emm_sap_t.emm_as_security emm_primitive_t.EMMAS_SECURITY_REQ none ueid
            E.EMM_AS_MSG_TYPE_IDENT type (E.security_data c.security FALSE TRUE),
            emm_sap_t.emm_reg emm_primitive_t.EMMREG_COMMON_PROC_REQ ueid (some emm_ctx) none] ∧
      (∀ k, k < 5 → ∃ wk, expiries E (some a) k w1 = .ok wk ∧
        wk.sapLog = w1.sapLog ++
          List.replicate k (emm_sap_t.emm_as_security emm_primitive_t.EMMAS_SECURITY_REQ none
              ueid E.EMM_AS_MSG_TYPE_IDENT type (E.security_data c.security FALSE TRUE)) ∧
        deref wk (some a) = some ⟨ueid, k, type, FALSE⟩) ∧
      ∃ w5, expiries E (some a) 5 w1 = .ok w5 ∧
        w5.sapLog = w1.sapLog ++
          List.replicate 4 (emm_sap_t.emm_as_security emm_primitive_t.EMMAS_SECURITY_REQ none
              ueid E.EMM_AS_MSG_TYPE_IDENT type (E.security_data c.security FALSE TRUE)) ++
          [emm_sap_t.emm_reg emm_primitive_t.EMMREG_COMMON_PROC_REJ ueid none none] ∧
        deref w5 (some a) = none ∧
        identity_requests (w5.sapLog.drop w.sapLog.length) = 5 ∧
        ∀ w4, expiries E (some a) 4 w1 = .ok w4 →
          _identification_t3470_handler E w4 (some a) =
            (match _identification_abort E (poke w4 a ⟨ueid, 5, type, TRUE⟩) (some a) with
             | .error e => .error e
             | .ok x => .ok x.1) := by
  have hs : E.sap_status w.sapLog (identity_request E ⟨ueid, 0, type, FALSE⟩ c) ≠
      E.RETURNerror := by
    rw [hsend]
    exact E.ok_ne_error
  obtain ⟨w1, c1, h1, h2, h3, h4, h5, -⟩ :=
    start_effect E w ueid emm_ctx type s r f a c hm hi hc hs
  rw [hsend] at h1
  have hrun : ∀ k, k < 5 → ∃ wk, expiries E (some a) k w1 = .ok wk ∧
      wk.sapLog = w1.sapLog ++
        List.replicate k (identity_request E ⟨ueid, 0, type, FALSE⟩ c) ∧
      deref wk (some a) = some ⟨ueid, k, type, FALSE⟩ ∧
      ∃ ck, emm_ctx_get E wk ueid = some ck ∧ ck.security = c.security := by
    intro k hk
    obtain ⟨wk, g1, g2, g3, g4, -⟩ :=
      expiries_resend E a ueid type c.security k 0 w1
        (by show 0 + k < 5; omega) h3 ⟨c1, h4, h5⟩
    refine ⟨wk, g1, g2, ?_, g4⟩
    rw [g3]
    congr 2
    omega
  refine ⟨w1, h1, h2, ?_, ?_⟩
  · intro k hk
    obtain ⟨wk, g1, g2, g3, -⟩ := hrun k hk
    exact ⟨wk, g1, g2, g3⟩
  · obtain ⟨w4, g1, g2, g3, c4, g4, -⟩ := hrun 4 (by decide)
    obtain ⟨w5, e1, e2, e3, -⟩ :=
      handler_exhaust E w4 a ⟨ueid, 4, type, FALSE⟩ c4 g3
        (by show ¬ (4 + 1) % 2 ^ 32 < 5; decide) g4
    refine ⟨w5, ?_, ?_, e3, ?_, ?_⟩
    · rw [expiries_succ_last E (some a) 4 w1 w4 g1]
      exact e1
    · rw [e2, g2]
      rfl
    · rw [e2, g2, h2]
      simp [identity_requests, identity_request, started, abort_reject, emm_sap_t.prim,
        List.countP_cons, List.countP_replicate]
    · intro w4b hw4
      rw [g1] at hw4
      cases hw4
      have h45 : ¬ (4 + 1) % 2 ^ 32 < IDENTIFICATION_COUNTER_MAX := by decide
      simp only [_identification_t3470_handler, g3, h45, if_false]
      rfl

/-- Instance of C1: the exhaustion scenario for UE 7 on the platform `P0`. -/
theorem bounded_retry_witness :
    (malloc_data P0 w0).2 = some 0 ∧
    ( emm_proc_common_initialize P0 (malloc_data P0 w0).1 7 1 2 3 (some 0)).2 = P0.RETURNok ∧
    emm_ctx_get P0 w0 7 = some c0 ∧
    (∀ l m, P0.sap_status l m = P0.RETURNok) ∧
    ∃ w1, emm_proc_identification P0 w0 7 (some 7) emm_proc_identity_type_t.IMSI 1 2 3 =
        .ok (w1, 0) ∧
      ∃ w5, expiries P0 (some 0) 5 w1 = .ok w5 ∧
        w5.sapLog =
          [emm_sap_t.emm_as_security emm_primitive_t.EMMAS_SECURITY_REQ none 7
              P0.EMM_AS_MSG_TYPE_IDENT emm_proc_identity_type_t.IMSI (P0.security_data
              c0.security FALSE TRUE),
            (emm_sap_t.emm_reg emm_primitive_t.EMMREG_COMMON_PROC_REQ 7 (some (some 7)) none)]
                ++
          List.replicate 4
            (emm_sap_t.emm_as_security emm_primitive_t.EMMAS_SECURITY_REQ none 7
                P0.EMM_AS_MSG_TYPE_IDENT emm_proc_identity_type_t.IMSI (P0.security_data
                c0.security FALSE TRUE)) ++
          [emm_sap_t.emm_reg emm_primitive_t.EMMREG_COMMON_PROC_REJ 7 none none] ∧
        deref w5 (some 0) = none := by
  obtain ⟨w1, h1, h2, -, w5, h4, h5, h6, -, -⟩ :=
    bounded_retry P0 w0 7 (some 7) emm_proc_identity_type_t.IMSI 1 2 3 0 c0 rfl rfl rfl
      (fun _ _ => rfl)
  refine ⟨rfl, rfl, rfl, fun _ _ => rfl, w1, h1, w5, h4, ?_, h6⟩
  rw [h5, h2]
  rfl

/-! ## Whole lifetimes -/

theorem run_replicate_expiry (E : Platform) (ueid : Nat) (args : Option Nat) (k : Nat) :
    ∀ w, run E ueid args w (List.replicate k Event.expiry) = expiries E args k w := by
  induction k with
  | zero => intro w; rfl
  | succ k ih =>
    intro w
    simp only [List.replicate_succ, run, step, expiries]
    cases _identification_t3470_handler E w args with
    | error e => rfl
    | ok w1 => exact ih w1

theorem run_append (E : Platform) (ueid : Nat) (args : Option Nat) (l1 l2 : List Event) :
    ∀ w w1, run E ueid args w l1 = .ok w1 →
      run E ueid args w (l1 ++ l2) = run E ueid args w1 l2 := by
  induction l1 with
  | nil =>
    intro w w1 h
    simp only [run, Except.ok.injEq] at h
    subst h
    rfl
  | cons e es ih =>
    intro w w1 h
    simp only [List.cons_append, run] at h ⊢
    cases hs : step E ueid args w e with
    | error x => simp [hs] at h
    | ok w2 =>
      simp only [hs] at h ⊢
      exact ih w2 w1 h

theorem outcomes_append_requests (l : List emm_sap_t) (k : Nat) (E : Platform)
    (d : identification_data_t) (c : emm_data_context_t) :
    outcomes (l ++ List.replicate k (identity_request E d c)) = outcomes l := by
  simp [outcomes, List.countP_append, List.countP_replicate, is_outcome, identity_request,
    emm_sap_t.prim]

theorem outcomes_start (l : List emm_sap_t) (E : Platform)
    (d : identification_data_t) (c : emm_data_context_t) (ueid : Nat) (p : Option Nat) :
    outcomes (l ++ [identity_request E d c, started ueid p]) = outcomes l := by
  simp [outcomes, List.countP_append, List.countP_cons, is_outcome, identity_request, started,
    emm_sap_t.prim]

theorem abort_silent (E : Platform) (w : World) (a : Nat)
    (d : identification_data_t) (c : emm_data_context_t)
    (hd : deref w (some a) = some d) (hc : emm_ctx_get E w d.ueid = some c)
    (hn : d.notify_failure = 0) :
    ∃ w1, _identification_abort E w (some a) = .ok (w1, E.RETURNok) ∧
      w1.sapLog = w.sapLog ∧ deref w1 (some a) = none := by
  rw [abort_eq E w a d c hd hc]
  by_cases hi : c.T3470.id = E.NAS_TIMER_INACTIVE_ID
  · simp only [hn, hi, ne_eq, not_true_eq_false, if_false]
    exact ⟨_, rfl, rfl, deref_freed _ a⟩
  · simp only [hn, hi, ne_eq, not_true_eq_false, not_false_eq_true, if_true, if_false]
    exact ⟨_, rfl, rfl, deref_freed _ a⟩

/-! ## Abort: repetition, registry, absent context -/

theorem abort_effect (E : Platform) (w : World) (a : Nat)
    (d : identification_data_t) (c : emm_data_context_t)
    (hd : deref w (some a) = some d) (hc : emm_ctx_get E w d.ueid = some c) :
    ∃ w1 rc, _identification_abort E w (some a) = .ok (w1, rc) ∧
      deref w1 (some a) = none ∧
      w1.registry = w.registry ∧
      (c.T3470.id = E.NAS_TIMER_INACTIVE_ID → w1.timerLog = w.timerLog ∧ w1.ctx = w.ctx) ∧
      (c.T3470.id ≠ E.NAS_TIMER_INACTIVE_ID →
        w1.timerLog = w.timerLog ++ [timer_op.stop c.T3470.id] ∧
        emm_ctx_get E w1 d.ueid = some { c with
          T3470 := ⟨E.timer_stop w.timerLog c.T3470.id, c.T3470.sec⟩ }) := by
  rw [abort_eq E w a d c hd hc]
  by_cases hn : d.notify_failure = 0 <;> by_cases hi : c.T3470.id = E.NAS_TIMER_INACTIVE_ID
  · simp only [hn, hi, ne_eq, not_true_eq_false, if_false]
    exact ⟨_, _, rfl, deref_freed _ a, rfl, fun _ => ⟨rfl, rfl⟩, fun h => h.elim⟩
  · simp only [hn, hi, ne_eq, not_true_eq_false, not_false_eq_true, if_true, if_false]
    exact ⟨_, _, rfl, deref_freed _ a, rfl, fun h => h.elim,
      fun _ => ⟨rfl, emm_ctx_get_put_same E _ _ c _ hc⟩⟩
  · simp only [hn, hi, ne_eq, not_true_eq_false, not_false_eq_true, if_true, if_false]
    refine ⟨_, _, rfl, ?_, rfl, fun _ => ⟨rfl, rfl⟩, fun h => h.elim⟩
    simp [deref, List.getElem?_set]
  · simp only [hn, hi, ne_eq, not_false_eq_true, if_true]
    refine ⟨_, _, rfl, ?_, rfl, fun h => h.elim,
      fun _ => ⟨rfl, emm_ctx_get_put_same E _ _ c _ hc⟩⟩
    simp [deref, List.getElem?_set]

theorem abort_freed (E : Platform) (w : World) (a : Nat)
    (h : deref w (some a) = none) :
    _identification_abort E w (some a) = .error Fault.bad_data := by
  simp only [_identification_abort, h]

/-- C11, as amended. `_identification_abort` consumes its argument. On an
absent (`NULL`) context two calls in a row are safe, yield the state of one
call (the state before), perform no timer operation and emit no notification.
On a valid context whose UE context exists the first call frees the context,
and performs no timer operation when T3470 is already inactive; a second call
on the same context reads the freed record. -/
theorem abort_consumes_context (E : Platform) (w : World) :
    (abort_twice E w none = _identification_abort E w none ∧
      _identification_abort E w none = .ok (w, E.RETURNerror)) ∧
    (∀ a d c, deref w (some a) = some d → emm_ctx_get E w d.ueid = some c →
      (∃ w1 rc, _identification_abort E w (some a) = .ok (w1, rc) ∧
        deref w1 (some a) = none ∧
        (c.T3470.id = E.NAS_TIMER_INACTIVE_ID → w1.timerLog = w.timerLog)) ∧
      abort_twice E w (some a) = .error Fault.bad_data) := by
  refine ⟨⟨rfl, rfl⟩, ?_⟩
  intro a d c hd hc
  obtain ⟨w1, rc, h1, h2, -, h4, -⟩ := abort_effect E w a d c hd hc
  refine ⟨⟨w1, rc, h1, h2, fun hi => (h4 hi).1⟩, ?_⟩
  simp only [abort_twice, h1]
  exact abort_freed E w1 a h2

/-- Instance of C11 (amended): the running procedure of UE 7, whose timer is
active, and the same procedure with T3470 already inactive. -/
theorem abort_consumes_context_witness :
    (∃ w1 rc, _identification_abort P0 (w_running 0) (some 0) = .ok (w1, rc) ∧
      deref w1 (some 0) = none) ∧
    abort_twice P0 (w_running 0) (some 0) = .error Fault.bad_data ∧
    abort_twice P0 w0 none = .ok (w0, -1) := by
  have h := abort_consumes_context P0 (w_running 0)
  obtain ⟨⟨w1, rc, h1, h2, -⟩, h3⟩ :=
    h.2 0 ⟨7, 0, emm_proc_identity_type_t.IMSI, 0⟩ { c0 with T3470 := ⟨3, 6⟩ } rfl rfl
  have h0 := abort_consumes_context P0 w0
  exact ⟨⟨w1, rc, h1, h2⟩, h3, h0.1.1.trans h0.1.2⟩

/-- C11 fails as stated: the first abort of the running procedure of UE 7
succeeds and frees the context at address 0; the second abort on the same
context reads the freed record. -/
theorem abort_twice_reads_freed_context :
    (_identification_abort P0 (w_running 0) (some 0)).map
        (fun x => (deref x.1 (some 0), x.2)) = .ok (none, 0) ∧
    (abort_twice P0 (w_running 0) (some 0)).map (fun x => x.2) =
      .error Fault.bad_data :=
  ⟨rfl, rfl⟩

/-- C14, as amended. `_identification_abort` performs no registry operation:
after it returns for a valid procedure context whose UE context exists, the
registry holds the entries it held before, the entry of that UE included,
whose argument now is a freed context. -/
theorem abort_keeps_registry (E : Platform) (w : World) (a : Nat)
    (d : identification_data_t) (c : emm_data_context_t)
    (hd : deref w (some a) = some d) (hc : emm_ctx_get E w d.ueid = some c) :
    ∃ w1 rc, _identification_abort E w (some a) = .ok (w1, rc) ∧
      w1.registry = w.registry ∧
      (emm_proc_common_get_args w d.ueid = some a →
        emm_proc_common_get_args w1 d.ueid = some a ∧ deref w1 (some a) = none) := by
  obtain ⟨w1, rc, h1, h2, h3, -, -⟩ := abort_effect E w a d c hd hc
  refine ⟨w1, rc, h1, h3, ?_⟩
  intro hg
  refine ⟨?_, h2⟩
  unfold emm_proc_common_get_args at hg ⊢
  rw [h3]
  exact hg

/-- Instance of C14 (amended): the running procedure of UE 7 is still
registered after its abort. -/
theorem abort_keeps_registry_witness :
    deref (w_running 0) (some 0) = some ⟨7, 0, emm_proc_identity_type_t.IMSI, 0⟩ ∧
    emm_ctx_get P0 (w_running 0) 7 = some { c0 with T3470 := ⟨3, 6⟩ } ∧
    ∃ w1 rc, _identification_abort P0 (w_running 0) (some 0) = .ok (w1, rc) ∧
      w1.registry = (w_running 0).registry ∧
      emm_proc_common_get_args w1 7 = some 0 ∧ deref w1 (some 0) = none := by
  obtain ⟨w1, rc, h1, h2, h3⟩ := abort_keeps_registry P0 (w_running 0) 0
    ⟨7, 0, emm_proc_identity_type_t.IMSI, 0⟩ { c0 with T3470 := ⟨3, 6⟩ } rfl rfl
  exact ⟨rfl, rfl, w1, rc, h1, h2, h3 rfl⟩

/-- C14 fails as stated: after the abort of the running, registered procedure
of UE 7 the registry lookup for UE 7 still returns the context at address 0. -/
theorem abort_leaves_registry_entry :
    emm_proc_common_get_args (w_running 0) 7 = some 0 ∧
    (_identification_abort P0 (w_running 0) (some 0)).map
        (fun x => (emm_proc_common_get_args x.1 7, x.2)) = .ok (some 0, 0) :=
  ⟨rfl, rfl⟩

/-- C15, as amended. `_identification_abort` invoked with an absent (`NULL`)
procedure context changes nothing (no UE context field, no timer handle, no
primitive, no timer operation) and returns `RETURNerror`, the initial value of
its status. -/
theorem abort_absent_context (E : Platform) (w : World) :
    _identification_abort E w none = .ok (w, E.RETURNerror) :=
  rfl

/-- C15 fails as stated: on the platform `P0` the abort of an absent context
returns the error status. -/
theorem abort_absent_context_returns_error :
    (_identification_abort P0 w0 none).map (fun x => x.2) = .ok P0.RETURNerror ∧
    P0.RETURNerror ≠ P0.RETURNok :=
  ⟨rfl, by decide⟩

/-! ## Failed sends -/

theorem request_failed_send (E : Platform) (w : World) (data : Option Nat)
    (d : identification_data_t) (c : emm_data_context_t)
    (hd : deref w data = some d) (hc : emm_ctx_get E w d.ueid = some c)
    (hs : E.sap_status w.sapLog (identity_request E d c) = E.RETURNerror) :
    _identification_request E w data =
      .ok ((emm_sap_send E w (identity_request E d c)).1, E.RETURNerror) := by
  rw [request_eq E w data d c hd hc]
  have hs1 : (emm_sap_send E w (identity_request E d c)).2 = E.RETURNerror := hs
  simp only [hs1, ne_eq, not_true_eq_false, if_false]
  rw [← hs1]

/-- C19. When the SAP send inside `_identification_request` returns
`RETURNerror`, the function returns `RETURNerror`, performs no timer operation
and leaves the UE context store (the T3470 handle included) and every
procedure context as they were. When this happens on the initial send,
`emm_proc_identification` returns `RETURNerror` while the procedure context is
still allocated, with the fields set by the start, and still registered for
the UE. -/
theorem failed_send_is_not_a_teardown (E : Platform) (w : World) :
    (∀ data d c, deref w data = some d → emm_ctx_get E w d.ueid = some c →
      E.sap_status w.sapLog (identity_request E d c) = E.RETURNerror →
      ∃ w1, _identification_request E w data = .ok (w1, E.RETURNerror) ∧
        w1.timerLog = w.timerLog ∧ w1.ctx = w.ctx ∧ ∀ p, deref w1 p = deref w p) ∧
    (∀ ueid emm_ctx type s r f a c, (malloc_data E w).2 = some a →
      ( emm_proc_common_initialize E (malloc_data E w).1 ueid s r f (some a)).2 = E.RETURNok →
      emm_ctx_get E w ueid = some c →
      E.sap_status w.sapLog (identity_request E ⟨ueid, 0, type, FALSE⟩ c) = E.RETURNerror →
      ∃ w1, emm_proc_identification E w ueid emm_ctx type s r f = .ok (w1, E.RETURNerror) ∧
        deref w1 (some a) = some ⟨ueid, 0, type, FALSE⟩ ∧
        emm_proc_common_get_args w1 ueid = some a ∧
        w1.timerLog = w.timerLog ∧ w1.ctx = w.ctx) := by
  constructor
  · intro data d c hd hc hs
    rw [request_failed_send E w data d c hd hc hs]
    exact ⟨_, rfl, rfl, rfl, fun _ => rfl⟩
  · intro ueid emm_ctx type s r f a c hm hi hc hs
    obtain ⟨p1, p2, p3, p4, p5⟩ := prepared_facts E w ueid type s r f a c hm hc
    have hs1 : E.sap_status (prepared E w ueid type s r f a).sapLog
        (identity_request E ⟨ueid, 0, type, FALSE⟩ c) = E.RETURNerror := by
      rw [p3]
      exact hs
    have hreq := request_failed_send E (prepared E w ueid type s r f a) (some a)
      ⟨ueid, 0, type, FALSE⟩ c p1 p2 hs1
    rw [start_eq E w ueid emm_ctx type s r f a hm hi, hreq]
    simp only [ne_eq, not_true_eq_false, if_false]
    refine ⟨_, rfl, ?_, ?_, ?_, ?_⟩
    · rw [deref_sap]
      exact p1
    · have hreg := initialize_succeeded E (malloc_data E w).1 ueid s r f (some a) hi
      unfold emm_proc_common_get_args at hreg ⊢
      show (match (prepared E w ueid type s r f a).registry ueid with
        | none => none
        | some e => e.args) = some a
      rw [p5]
      exact hreg
    · show (prepared E w ueid type s r f a).timerLog = w.timerLog
      exact p4
    · have hctx : (prepared E w ueid type s r f a).ctx = w.ctx := by
        obtain ⟨-, -, h2, -, -, -⟩ := malloc_data_some E w a hm
        obtain ⟨-, i2, -, -⟩ := initialize_frame E (malloc_data E w).1 ueid s r f (some a)
        show ( emm_proc_common_initialize E (malloc_data E w).1 ueid s r f (some a)).1.ctx = w.ctx
        rw [i2, h2]
      exact hctx

/-- Instance of C19: a resend and a start on the platform `P_sap_fails`. -/
theorem failed_send_is_not_a_teardown_witness :
    (∃ w1, _identification_request P_sap_fails (w_running 0) (some 0) = .ok (w1, -1) ∧
      w1.timerLog = [] ∧ w1.ctx = (w_running 0).ctx ∧
      ∀ p, deref w1 p = deref (w_running 0) p) ∧
    (∃ w1, emm_proc_identification P_sap_fails w0 7 (some 7)
        emm_proc_identity_type_t.IMSI 1 2 3 = .ok (w1, -1) ∧
      deref w1 (some 0) = some ⟨7, 0, emm_proc_identity_type_t.IMSI, FALSE⟩ ∧
      emm_proc_common_get_args w1 7 = some 0 ∧
      w1.timerLog = [] ∧ w1.ctx = w0.ctx) := by
  have h := failed_send_is_not_a_teardown P_sap_fails (w_running 0)
  have h0 := failed_send_is_not_a_teardown P_sap_fails w0
  exact ⟨h.1 (some 0) ⟨7, 0, emm_proc_identity_type_t.IMSI, 0⟩
      { c0 with T3470 := ⟨3, 6⟩ } rfl rfl rfl,
    h0.2 7 (some 7) emm_proc_identity_type_t.IMSI 1 2 3 0 c0 rfl rfl rfl rfl⟩

/-! ## Absence of the access to a missing UE context -/

theorem request_no_null_ctx (E : Platform) (w : World) (data : Option Nat)
    (h : ∀ d, deref w data = some d → emm_ctx_get E w d.ueid ≠ none) :
    _identification_request E w data ≠ .error Fault.null_ctx := by
  cases hd : deref w data with
  | none =>
    simp only [_identification_request, hd]
    intro hx
    cases hx
  | some d =>
    cases hc : emm_ctx_get E w d.ueid with
    | none => exact absurd hc (h d hd)
    | some c =>
      obtain ⟨w1, c1, h1, -⟩ := request_effect E w data d c hd hc
      rw [h1]
      intro hx
      cases hx

theorem abort_no_null_ctx (E : Platform) (w : World) (args : Option Nat)
    (h : ∀ d, deref w args = some d → emm_ctx_get E w d.ueid ≠ none) :
    _identification_abort E w args ≠ .error Fault.null_ctx := by
  cases args with
  | none =>
    simp only [_identification_abort]
    intro hx
    cases hx
  | some a =>
    cases hd : deref w (some a) with
    | none =>
      rw [abort_freed E w a hd]
      intro hx
      cases hx
    | some d =>
      cases hc : emm_ctx_get E w d.ueid with
      | none => exact absurd hc (h d hd)
      | some c =>
        obtain ⟨w1, rc, h1, -⟩ := abort_effect E w a d c hd hc
        rw [h1]
        intro hx
        cases hx

theorem handler_no_null_ctx (E : Platform) (w : World) (args : Option Nat)
    (h : ∀ d, deref w args = some d → emm_ctx_get E w d.ueid ≠ none) :
    _identification_t3470_handler E w args ≠ .error Fault.null_ctx := by
  cases args with
  | none =>
    simp only [_identification_t3470_handler]
    intro hx
    cases hx
  | some a =>
    cases hd : deref w (some a) with
    | none =>
      simp only [_identification_t3470_handler, hd]
      intro hx
      cases hx
    | some d =>
      have hc := h d hd
      simp only [_identification_t3470_handler, hd]
      split
      · have hp := deref_poke_same w a d
          { d with retransmission_count := (d.retransmission_count + 1) % 2 ^ 32 } hd
        have hr := request_no_null_ctx E
          (poke w a { d with retransmission_count := (d.retransmission_count + 1) % 2 ^ 32 })
          (some a) (by
            intro d1 hd1
            rw [hp] at hd1
            cases hd1
            exact hc)
        intro hx
        split at hx
        · next e he =>
          cases hx
          exact hr he
        · cases hx
      · have hp := deref_poke_same w a d
          { d with retransmission_count := (d.retransmission_count + 1) % 2 ^ 32,
                   notify_failure := TRUE } hd
        have hr := abort_no_null_ctx E
          (poke w a { d with retransmission_count := (d.retransmission_count + 1) % 2 ^ 32,
                             notify_failure := TRUE })
          (some a) (by
            intro d1 hd1
            rw [hp] at hd1
            cases hd1
            exact hc)
        intro hx
        split at hx
        · next e he =>
          cases hx
          exact hr he
        · cases hx

theorem start_no_null_ctx (E : Platform) (w : World) (ueid : Nat) (emm_ctx : Option Nat)
    (type : emm_proc_identity_type_t) (s r f : Nat)
    (h : emm_ctx_get E w ueid ≠ none) :
    emm_proc_identification E w ueid emm_ctx type s r f ≠ .error Fault.null_ctx := by
  cases hm : (malloc_data E w).2 with
  | none =>
    simp only [emm_proc_identification, hm]
    intro hx
    cases hx
  | some a =>
    by_cases hi : ( emm_proc_common_initialize E (malloc_data E w).1 ueid s r f (some a)).2 =
        E.RETURNok
    · obtain ⟨c, hc⟩ := Option.ne_none_iff_exists'.mp h
      obtain ⟨p1, p2, -⟩ := prepared_facts E w ueid type s r f a c hm hc
      obtain ⟨w1, c1, h1, -⟩ :=
        request_effect E (prepared E w ueid type s r f a) (some a) ⟨ueid, 0, type, FALSE⟩ c p1 p2
      rw [start_eq E w ueid emm_ctx type s r f a hm hi, h1]
      simp only
      split <;> (intro hx; cases hx)
    · simp only [emm_proc_identification, hm, hi, ne_eq, not_false_eq_true, if_true]
      intro hx
      split at hx
      · next e he =>
        cases hx
        simp only [free] at he
        split at he <;> cases he
      · cases hx

theorem complete_no_null_ctx (E : Platform) (w : World) (ueid : Nat)
    (imsi : Option imsi_t) (imei : Option imei_t) (tmsi : Option Nat) :
    emm_proc_identification_complete E w ueid imsi imei tmsi ≠ .error Fault.null_ctx := by
  intro hx
  simp only [emm_proc_identification_complete] at hx
  split at hx
  · next e he =>
    cases hx
    split at he
    · cases he
    · simp only [free] at he
      split at he <;> cases he
  · split at hx <;> cases hx

/-- C20. In a state where the UE id of the procedure resolves to a UE context,
`emm_proc_identification`, `_identification_request`,
`_identification_t3470_handler` and `_identification_abort` never reach the
member access through a `NULL` UE context pointer; and
`emm_proc_identification_complete` never reaches it, whatever its input. For
the three functions that take a procedure context the UE id is the one stored
in that context. -/
theorem context_existence_suffices (E : Platform) (w : World) :
    (∀ ueid emm_ctx type s r f, emm_ctx_get E w ueid ≠ none →
      emm_proc_identification E w ueid emm_ctx type s r f ≠ .error Fault.null_ctx) ∧
    (∀ data, (∀ d, deref w data = some d → emm_ctx_get E w d.ueid ≠ none) →
      _identification_request E w data ≠ .error Fault.null_ctx ∧
      _identification_t3470_handler E w data ≠ .error Fault.null_ctx ∧
      _identification_abort E w data ≠ .error Fault.null_ctx) ∧
    (∀ ueid imsi imei tmsi,
      emm_proc_identification_complete E w ueid imsi imei tmsi ≠ .error Fault.null_ctx) :=
  ⟨fun ueid emm_ctx type s r f h => start_no_null_ctx E w ueid emm_ctx type s r f h,
    fun data h => ⟨request_no_null_ctx E w data h, handler_no_null_ctx E w data h,
      abort_no_null_ctx E w data h⟩,
    fun ueid imsi imei tmsi => complete_no_null_ctx E w ueid imsi imei tmsi⟩

/-- Instance of C20 on the running procedure of UE 7, together with the
access that the precondition excludes: the same procedure context when UE 7
has no UE context. -/
theorem context_existence_suffices_witness :
    emm_ctx_get P0 (w_running 0) 7 ≠ none ∧
    emm_proc_identification P0 (w_running 0) 7 (some 7) emm_proc_identity_type_t.IMSI 1 2 3 ≠
      .error Fault.null_ctx ∧
    _identification_request P0 (w_running 0) (some 0) ≠ .error Fault.null_ctx ∧
    _identification_t3470_handler P0 (w_running 0) (some 0) ≠ .error Fault.null_ctx ∧
    _identification_abort P0 (w_running 0) (some 0) ≠ .error Fault.null_ctx ∧
    _identification_request P0 { w_running 0 with ctx := fun _ => none } (some 0) =
      .error Fault.null_ctx := by
  have h := context_existence_suffices P0 (w_running 0)
  have hc : emm_ctx_get P0 (w_running 0) 7 ≠ none := by decide
  have hd : ∀ d, deref (w_running 0) (some 0) = some d →
      emm_ctx_get P0 (w_running 0) d.ueid ≠ none := by
    intro d hd
    have h0 : deref (w_running 0) (some 0) =
      some ⟨7, 0, emm_proc_identity_type_t.IMSI, 0⟩ := rfl
    rw [h0] at hd
    cases hd
    exact hc
  exact ⟨hc, h.1 7 (some 7) emm_proc_identity_type_t.IMSI 1 2 3 hc,
    (h.2.1 (some 0) hd).1, (h.2.1 (some 0) hd).2.1, (h.2.1 (some 0) hd).2.2, rfl⟩

/-! ## Priority of the identity arguments -/

theorem update_identity_guti (E : Platform) (w : World) (c : emm_data_context_t)
    (t : Nat) :
    (update_identity E w c none none (some t)).2.guti =
      (if c.guti.isSome || E.malloc_ok w.nalloc then some ⟨w.conf_gummei, t⟩ else none) := by
  unfold update_identity malloc
  cases hi : c.guti <;> cases hm : E.malloc_ok w.nalloc <;> simp [hi, hm]

theorem update_identity_imei_value (E : Platform) (w : World) (c : emm_data_context_t)
    (v : imei_t) (tmsi : Option Nat) :
    (update_identity E w c none (some v) tmsi).2.imei =
      (if c.imei.isSome || E.malloc_ok w.nalloc then some v else none) := by
  unfold update_identity malloc
  cases hi : c.imei <;> cases hm : E.malloc_ok w.nalloc <;> simp [hi, hm]

/-- C12. On an existing UE context, `emm_proc_identification_complete` acts on
the first supplied identity argument in the order IMSI, IMEI, TMSI and on no
other: the arguments after the first supplied one do not influence the result,
the fields of the other kinds keep their values, the selected field receives
the supplied value (unless it was `NULL` and its allocation fails, in which
case it stays `NULL`), and with no argument supplied no identity field
changes. In every case exactly one primitive is sent,
`EMMREG_COMMON_PROC_CNF`. -/
theorem identity_priority (E : Platform) (w : World) (ueid : Nat)
    (c : emm_data_context_t)
    (hr : registry_sound w ueid) (hc : emm_ctx_get E w ueid = some c) :
    (∀ v imei tmsi, emm_proc_identification_complete E w ueid (some v) imei tmsi =
      emm_proc_identification_complete E w ueid (some v) none none) ∧
    (∀ v tmsi, emm_proc_identification_complete E w ueid none (some v) tmsi =
      emm_proc_identification_complete E w ueid none (some v) none) ∧
    (∀ imsi imei tmsi, ∃ w1 c1,
      emm_proc_identification_complete E w ueid imsi imei tmsi =
        .ok (w1, E.sap_status w.sapLog (emm_sap_t.emm_reg
            emm_primitive_t.EMMREG_COMMON_PROC_CNF ueid (some (some ueid)) (some
            c.is_attached))) ∧
      w1.sapLog = w.sapLog ++ [emm_sap_t.emm_reg emm_primitive_t.EMMREG_COMMON_PROC_CNF ueid
          (some (some ueid)) (some c.is_attached)] ∧
      emm_ctx_get E w1 ueid = some c1 ∧
      (match imsi, imei, tmsi with
       | some v, _, _ =>
         c1.imsi = (if c.imsi.isSome || E.malloc_ok w.nalloc then some v else none) ∧
         c1.imei = c.imei ∧ c1.guti = c.guti
       | none, some v, _ =>
         c1.imsi = c.imsi ∧
         c1.imei = (if c.imei.isSome || E.malloc_ok w.nalloc then some v else none) ∧
         c1.guti = c.guti
       | none, none, some t =>
         c1.imsi = c.imsi ∧ c1.imei = c.imei ∧
         c1.guti = (if c.guti.isSome || E.malloc_ok w.nalloc
           then some ⟨w.conf_gummei, t⟩ else none)
       | none, none, none =>
         c1.imsi = c.imsi ∧ c1.imei = c.imei ∧ c1.guti = c.guti)) := by
  refine ⟨?_, ?_, ?_⟩
  · intro v imei tmsi
    cases imei <;> cases tmsi <;> rfl
  · intro v tmsi
    cases tmsi <;> rfl
  · intro imsi imei tmsi
    obtain ⟨w1, c1, h1, h2, h3, h4⟩ :=
      complete_ctx_after E w ueid imsi imei tmsi c hr hc
    refine ⟨w1, c1, h1, h2, h3, ?_⟩
    have hn : (nas_timer_stop E (released w ueid) c.T3470.id).1.nalloc = w.nalloc := by
      simp [nas_timer_stop]
    have hg : (nas_timer_stop E (released w ueid) c.T3470.id).1.conf_gummei =
        w.conf_gummei := by
      simp [nas_timer_stop]
    cases imsi with
    | some v =>
      obtain ⟨u1, u2, u3⟩ := update_identity_imsi E
        (nas_timer_stop E (released w ueid) c.T3470.id).1
        { c with T3470 := { c.T3470 with id := E.timer_stop w.timerLog c.T3470.id } }
        v imei tmsi
      rw [hn] at u1
      exact ⟨by rw [h4, u1], by rw [h4, u2], by rw [h4, u3]⟩
    | none =>
      cases imei with
      | some v =>
        obtain ⟨u1, u3⟩ := update_identity_imei E
          (nas_timer_stop E (released w ueid) c.T3470.id).1
          { c with T3470 := { c.T3470 with id := E.timer_stop w.timerLog c.T3470.id } }
          v tmsi
        have u2 := update_identity_imei_value E
          (nas_timer_stop E (released w ueid) c.T3470.id).1
          { c with T3470 := { c.T3470 with id := E.timer_stop w.timerLog c.T3470.id } }
          v tmsi
        rw [hn] at u2
        exact ⟨by rw [h4, u1], by rw [h4, u2], by rw [h4, u3]⟩
      | none =>
        cases tmsi with
        | some t =>
          obtain ⟨u1, u2⟩ := update_identity_tmsi E
            (nas_timer_stop E (released w ueid) c.T3470.id).1
            { c with T3470 := { c.T3470 with id := E.timer_stop w.timerLog c.T3470.id } } t
          have u3 := update_identity_guti E
            (nas_timer_stop E (released w ueid) c.T3470.id).1
            { c with T3470 := { c.T3470 with id := E.timer_stop w.timerLog c.T3470.id } } t
          rw [hn, hg] at u3
          exact ⟨by rw [h4, u1], by rw [h4, u2], by rw [h4, u3]⟩
        | none =>
          rw [h4]
          exact ⟨rfl, rfl, rfl⟩

/-- Instance of C12 on the context `c_identified` of UE 7: with an IMSI, an
IMEI and a TMSI supplied together only the IMSI is recorded. -/
theorem identity_priority_witness :
    registry_sound w_identified 7 ∧
    emm_ctx_get P0 w_identified 7 = some c_identified ∧
    ∃ w1 c1, emm_proc_identification_complete P0 w_identified 7 (some imsi0)
        (some ⟨[9, 9]⟩) (some 5) = .ok (w1, 0) ∧
      w1.sapLog = [emm_sap_t.emm_reg emm_primitive_t.EMMREG_COMMON_PROC_CNF 7 (some (some 7))
          (some 1)] ∧
      emm_ctx_get P0 w1 7 = some c1 ∧
      c1.imsi = some imsi0 ∧ c1.imei = some ⟨[3, 5]⟩ ∧
      c1.guti = some ⟨⟨20893, 4, 1⟩, 77⟩ := by
  have hr : registry_sound w_identified 7 := registry_sound_empty _ _ rfl
  have hc : emm_ctx_get P0 w_identified 7 = some c_identified := rfl
  obtain ⟨w1, c1, h1, h2, h3, h4, h5, h6⟩ :=
    (identity_priority P0 w_identified 7 c_identified hr hc).2.2
      (some imsi0) (some ⟨[9, 9]⟩) (some 5)
  exact ⟨hr, hc, w1, c1, h1, h2, h3, h4, h5, h6⟩

/-! ## The condition of a procedure instance between events -/

theorem request_ok_inv (E : Platform) (w : World) (data : Option Nat) (r : World × Int)
    (h : _identification_request E w data = .ok r) :
    ∃ d c, deref w data = some d ∧ emm_ctx_get E w d.ueid = some c := by
  cases hd : deref w data with
  | none => simp [_identification_request, hd] at h
  | some d =>
    cases hc : emm_ctx_get E w d.ueid with
    | none => simp [_identification_request, hd, hc] at h
    | some c => exact ⟨d, c, rfl, hc⟩

theorem abort_ok_inv (E : Platform) (w : World) (a : Nat) (r : World × Int)
    (h : _identification_abort E w (some a) = .ok r) :
    ∃ d c, deref w (some a) = some d ∧ emm_ctx_get E w d.ueid = some c := by
  cases hd : deref w (some a) with
  | none => simp [_identification_abort, hd] at h
  | some d =>
    cases hc : emm_ctx_get E w d.ueid with
    | none => simp [_identification_abort, hd, hc] at h
    | some c => exact ⟨d, c, rfl, hc⟩

theorem handler_ok_inv (E : Platform) (w : World) (args : Option Nat) (w1 : World)
    (h : _identification_t3470_handler E w args = .ok w1) :
    ∃ a d c, args = some a ∧ deref w (some a) = some d ∧
      emm_ctx_get E w d.ueid = some c := by
  cases args with
  | none => simp [_identification_t3470_handler] at h
  | some a =>
    cases hd : deref w (some a) with
    | none => simp [_identification_t3470_handler, hd] at h
    | some d =>
      cases hc : emm_ctx_get E w d.ueid with
      | some c => exact ⟨a, d, c, rfl, hd, hc⟩
      | none =>
        exfalso
        have hn := handler_no_null_ctx E w (some a)
        simp only [_identification_t3470_handler, hd] at h
        split at h
        · have hp := deref_poke_same w a d
            { d with retransmission_count := (d.retransmission_count + 1) % 2 ^ 32 } hd
          split at h
          · cases h
          · next r hr =>
            obtain ⟨d1, c1, e1, e2⟩ := request_ok_inv E _ _ r hr
            rw [hp] at e1
            cases e1
            rw [emm_ctx_get_poke] at e2
            rw [hc] at e2
            cases e2
        · have hp := deref_poke_same w a d
            { d with retransmission_count := (d.retransmission_count + 1) % 2 ^ 32,
                     notify_failure := TRUE } hd
          split at h
          · cases h
          · next r hr =>
            obtain ⟨d1, c1, e1, e2⟩ := abort_ok_inv E _ a r hr
            rw [hp] at e1
            cases e1
            rw [emm_ctx_get_poke] at e2
            rw [hc] at e2
            cases e2

theorem complete_ok_inv (E : Platform) (w : World) (ueid : Nat)
    (imsi : Option imsi_t) (imei : Option imei_t) (tmsi : Option Nat) (r : World × Int)
    (h : emm_proc_identification_complete E w ueid imsi imei tmsi = .ok r) :
    registry_sound w ueid := by
  intro a ha
  cases hd : deref w (some a) with
  | some d => rfl
  | none =>
    simp [emm_proc_identification_complete, ha, free, hd] at h

theorem deref_released_none (w : World) (ueid : Nat) (p : Option Nat)
    (h : deref w p = none) : deref (released w ueid) p = none := by
  unfold released
  split
  · exact h
  · next b _ =>
    cases p with
    | none => rfl
    | some q =>
      simp only [deref] at h ⊢
      by_cases hq : b = q
      · subst hq
        simp [List.getElem?_set]
      · rw [List.getElem?_set_ne hq]
        exact h

theorem deref_released_registered (w : World) (ueid : Nat) (a : Nat)
    (h : emm_proc_common_get_args w ueid = some a) :
    deref (released w ueid) (some a) = none := by
  unfold released
  rw [h]
  exact deref_freed w a

theorem complete_effect (E : Platform) (w : World) (ueid : Nat)
    (imsi : Option imsi_t) (imei : Option imei_t) (tmsi : Option Nat) (r : World × Int)
    (h : emm_proc_identification_complete E w ueid imsi imei tmsi = .ok r) :
    (∃ m, r.1.sapLog = w.sapLog ++ [m] ∧ is_outcome m = true) ∧
    r.1.registry = w.registry ∧
    ∀ p, deref r.1 p = deref (released w ueid) p := by
  have hr := complete_ok_inv E w ueid imsi imei tmsi r h
  cases hc : emm_ctx_get E w ueid with
  | none =>
    rw [complete_eq_none E w ueid imsi imei tmsi hr hc] at h
    cases h
    refine ⟨⟨complete_reject ueid, ?_, rfl⟩, ?_, fun _ => rfl⟩
    · simp [emm_sap_send]
    · show (released w ueid).registry = w.registry
      unfold released
      split <;> rfl
  | some c =>
    obtain ⟨w1, c1, e1, e2, -, -⟩ := complete_ctx_after E w ueid imsi imei tmsi c hr hc
    have hlog : r.1.sapLog = w.sapLog ++ [complete_confirm ueid c.is_attached] := by
      rw [e1] at h
      cases h
      exact e2
    rw [complete_eq_some E w ueid imsi imei tmsi c hr hc] at h
    obtain ⟨-, -, -, u4, u5⟩ := update_identity_world E
      (nas_timer_stop E (released w ueid) c.T3470.id).1
      { c with T3470 := { c.T3470 with
          id := (nas_timer_stop E (released w ueid) c.T3470.id).2 } } imsi imei tmsi
    cases h
    refine ⟨⟨_, hlog, rfl⟩, ?_, ?_⟩
    · show (update_identity E _ _ imsi imei tmsi).1.registry = w.registry
      rw [u5]
      show (released w ueid).registry = w.registry
      unfold released
      split <;> rfl
    · intro p
      cases p with
      | none => rfl
      | some q =>
        show ((update_identity E _ _ imsi imei tmsi).1.heap[q]?).join = _
        rw [u4]
        rfl

theorem shape_identity_request (E : Platform) (d : identification_data_t)
    (c : emm_data_context_t) :
    request_shape E d.ueid d.type (identity_request E d c) :=
  fun _ => ⟨_, rfl⟩

theorem shape_of_emm_reg (E : Platform) (ueid : Nat) (type : emm_proc_identity_type_t)
    (m : emm_sap_t) (h : m.prim ≠ emm_primitive_t.EMMAS_SECURITY_REQ) :
    request_shape E ueid type m :=
  fun h1 => absurd h1 h

theorem shape_of_outcome (E : Platform) (ueid : Nat) (type : emm_proc_identity_type_t)
    (m : emm_sap_t) (h : is_outcome m = true) : request_shape E ueid type m := by
  apply shape_of_emm_reg
  intro h1
  simp [is_outcome, h1] at h

theorem get_args_congr (w1 w2 : World) (ueid : Nat) (h : w1.registry = w2.registry) :
    emm_proc_common_get_args w1 ueid = emm_proc_common_get_args w2 ueid := by
  unfold emm_proc_common_get_args
  rw [h]

theorem step_invariant (E : Platform) (ueid : Nat) (type : emm_proc_identity_type_t)
    (args : Option Nat) (w w1 : World) (e : Event)
    (hb : between_events ueid type args w) (h : step E ueid args w e = .ok w1) :
    between_events ueid type args w1 ∧
      ∃ l, w1.sapLog = w.sapLog ++ l ∧ ∀ m ∈ l, request_shape E ueid type m := by
  cases e with
  | expiry =>
    simp only [step] at h
    obtain ⟨a, d, c, rfl, hd, hc⟩ := handler_ok_inv E w args w1 h
    rcases hb with hb | ⟨hg, k, hk, hlive⟩
    · rw [hb] at hd
      cases hd
    · rw [hlive] at hd
      cases hd
      by_cases hlt : k + 1 < IDENTIFICATION_COUNTER_MAX
      · obtain ⟨w2, c2, e1, e2, e3, -, -, e6⟩ :=
          handler_resend E w a ⟨ueid, k, type, FALSE⟩ c hlive hlt hc
        rw [e1] at h
        cases h
        refine ⟨Or.inr ⟨?_, k + 1, hlt, e3⟩, [identity_request E ⟨ueid, k, type, FALSE⟩ c], e2, ?_⟩
        · rw [get_args_congr _ _ ueid e6]
          exact hg
        · intro m hm
          rw [List.mem_singleton] at hm
          subst hm
          exact shape_identity_request E ⟨ueid, k, type, FALSE⟩ c
      · have hk4 : k = 4 := by
          unfold IDENTIFICATION_COUNTER_MAX at hk hlt
          omega
        subst hk4
        obtain ⟨w2, e1, e2, e3, -⟩ :=
          handler_exhaust E w a ⟨ueid, 4, type, FALSE⟩ c hlive
            (by show ¬ (4 + 1) % 2 ^ 32 < 5; decide) hc
        rw [e1] at h
        cases h
        refine ⟨Or.inl e3, [abort_reject ueid], e2, ?_⟩
        intro m hm
        rw [List.mem_singleton] at hm
        subst hm
        exact shape_of_outcome E ueid type _ rfl
  | complete imsi imei tmsi =>
    simp only [step] at h
    cases hcpl : emm_proc_identification_complete E w ueid imsi imei tmsi with
    | error x => simp [hcpl] at h
    | ok r =>
      simp only [hcpl, Except.ok.injEq] at h
      subst h
      obtain ⟨⟨m, e1, e2⟩, -, e4⟩ := complete_effect E w ueid imsi imei tmsi r hcpl
      refine ⟨Or.inl ?_, [m], e1, ?_⟩
      · rw [e4]
        rcases hb with hb | ⟨hg, k, -, hlive⟩
        · exact deref_released_none w ueid args hb
        · cases args with
          | none => rfl
          | some a => exact deref_released_registered w ueid a hg
      · intro m1 hm
        rw [List.mem_singleton] at hm
        subst hm
        exact shape_of_outcome E ueid type _ e2
  | abort =>
    simp only [step] at h
    cases hab : _identification_abort E w args with
    | error x => simp [hab] at h
    | ok r =>
      simp only [hab, Except.ok.injEq] at h
      subst h
      cases args with
      | none =>
        simp only [_identification_abort, Except.ok.injEq] at hab
        subst hab
        exact ⟨hb, [], by simp, by simp⟩
      | some a =>
        obtain ⟨d, c, hd, hc⟩ := abort_ok_inv E w a r hab
        rcases hb with hb | ⟨-, k, -, hlive⟩
        · rw [hb] at hd
          cases hd
        · rw [hlive] at hd
          cases hd
          obtain ⟨w2, e1, e2, e3⟩ :=
            abort_silent E w a ⟨ueid, k, type, FALSE⟩ c hlive hc rfl
          rw [e1] at hab
          cases hab
          exact ⟨Or.inl e3, [], by simpa using e2, by simp⟩

theorem run_invariant (E : Platform) (ueid : Nat) (type : emm_proc_identity_type_t)
    (args : Option Nat) (evs : List Event) :
    ∀ w w1, between_events ueid type args w → run E ueid args w evs = .ok w1 →
      between_events ueid type args w1 ∧
        ∃ l, w1.sapLog = w.sapLog ++ l ∧ ∀ m ∈ l, request_shape E ueid type m := by
  induction evs with
  | nil =>
    intro w w1 hb h
    simp only [run, Except.ok.injEq] at h
    subst h
    exact ⟨hb, [], by simp, by simp⟩
  | cons e es ih =>
    intro w w1 hb h
    simp only [run] at h
    cases hs : step E ueid args w e with
    | error x => simp [hs] at h
    | ok w2 =>
      simp only [hs] at h
      obtain ⟨hb2, l2, g1, g2⟩ := step_invariant E ueid type args w w2 e hb hs
      obtain ⟨hb3, l3, g3, g4⟩ := ih w2 w1 hb2 h
      refine ⟨hb3, l2 ++ l3, ?_, ?_⟩
      · rw [g3, g1, List.append_assoc]
      · intro m hm
        rcases List.mem_append.mp hm with hm | hm
        · exact g2 m hm
        · exact g4 m hm

theorem prepared_basic (E : Platform) (w : World) (ueid : Nat)
    (type : emm_proc_identity_type_t) (s r f a : Nat)
    (hm : (malloc_data E w).2 = some a) :
    deref (prepared E w ueid type s r f a) (some a) = some ⟨ueid, 0, type, FALSE⟩ ∧
    (prepared E w ueid type s r f a).ctx = w.ctx ∧
    (prepared E w ueid type s r f a).sapLog = w.sapLog := by
  obtain ⟨ha, h1, h2, h3, -, -⟩ := malloc_data_some E w a hm
  obtain ⟨i1, i2, i3, -⟩ :=
    initialize_frame E (malloc_data E w).1 ueid s r f (some a)
  have hlive : deref ( emm_proc_common_initialize E (malloc_data E w).1 ueid s r f (some a)).1
      (some a) = some ⟨0, 0, emm_proc_identity_type_t.NOT_AVAILABLE, 0⟩ := by
    simp only [deref, i1, h1]
    simp [ha]
  refine ⟨deref_poke_same _ a _ _ hlive, ?_, ?_⟩
  · show ( emm_proc_common_initialize E (malloc_data E w).1 ueid s r f (some a)).1.ctx = _
    rw [i2, h2]
  · show ( emm_proc_common_initialize E (malloc_data E w).1 ueid s r f (some a)).1.sapLog = _
    rw [i3, h3]

theorem start_failed_send (E : Platform) (w : World) (ueid : Nat) (emm_ctx : Option Nat)
    (type : emm_proc_identity_type_t) (s r f a : Nat) (c : emm_data_context_t)
    (hm : (malloc_data E w).2 = some a)
    (hi : ( emm_proc_common_initialize E (malloc_data E w).1 ueid s r f (some a)).2 =
      E.RETURNok)
    (hc : emm_ctx_get E w ueid = some c)
    (hs : E.sap_status w.sapLog (identity_request E ⟨ueid, 0, type, FALSE⟩ c) =
      E.RETURNerror) :
    ∃ w1, emm_proc_identification E w ueid emm_ctx type s r f = .ok (w1, E.RETURNerror) ∧
      w1.sapLog = w.sapLog ++ [identity_request E ⟨ueid, 0, type, FALSE⟩ c] ∧
      deref w1 (some a) = some ⟨ueid, 0, type, FALSE⟩ ∧
      emm_proc_common_get_args w1 ueid = some a := by
  obtain ⟨p1, p2, p3, -, p5⟩ := prepared_facts E w ueid type s r f a c hm hc
  have hs1 : E.sap_status (prepared E w ueid type s r f a).sapLog
      (identity_request E ⟨ueid, 0, type, FALSE⟩ c) = E.RETURNerror := by
    rw [p3]
    exact hs
  have hreq := request_failed_send E (prepared E w ueid type s r f a) (some a)
    ⟨ueid, 0, type, FALSE⟩ c p1 p2 hs1
  rw [start_eq E w ueid emm_ctx type s r f a hm hi, hreq]
  simp only [ne_eq, not_true_eq_false, if_false]
  refine ⟨_, rfl, ?_, ?_, ?_⟩
  · show (prepared E w ueid type s r f a).sapLog ++ _ = _
    rw [p3]
  · rw [deref_sap]
    exact p1
  · have hreg := initialize_succeeded E (malloc_data E w).1 ueid s r f (some a) hi
    unfold emm_proc_common_get_args at hreg ⊢
    show (match (prepared E w ueid type s r f a).registry ueid with
      | none => none
      | some e => e.args) = some a
    rw [p5]
    exact hreg

theorem start_invariant (E : Platform) (w : World) (ueid : Nat) (emm_ctx : Option Nat)
    (type : emm_proc_identity_type_t) (s r f : Nat) (x : World × Int)
    (h : emm_proc_identification E w ueid emm_ctx type s r f = .ok x) :
    between_events ueid type (malloc_data E w).2 x.1 ∧
      (∃ l, x.1.sapLog = w.sapLog ++ l ∧ ∀ m ∈ l, request_shape E ueid type m) ∧
      ∀ d, deref x.1 (malloc_data E w).2 = some d → d.retransmission_count = 0 := by
  cases hm : (malloc_data E w).2 with
  | none =>
    simp only [emm_proc_identification, hm, Except.ok.injEq] at h
    subst h
    obtain ⟨-, -, h3, -, -⟩ := malloc_data_none E w hm
    refine ⟨Or.inl rfl, ⟨[], by simpa using h3, by simp⟩, ?_⟩
    intro d hd
    cases hd
  | some a =>
    by_cases hi : ( emm_proc_common_initialize E (malloc_data E w).1 ueid s r f (some a)).2 =
        E.RETURNok
    · obtain ⟨q1, q2, -⟩ := prepared_basic E w ueid type s r f a hm
      have hreq : ∃ c, emm_ctx_get E w ueid = some c := by
        rw [start_eq E w ueid emm_ctx type s r f a hm hi] at h
        cases hr : _identification_request E (prepared E w ueid type s r f a) (some a) with
        | error e => simp [hr] at h
        | ok y =>
          obtain ⟨d, c, e1, e2⟩ := request_ok_inv E _ _ y hr
          rw [q1] at e1
          cases e1
          exact ⟨c, by rw [← e2]; exact emm_ctx_get_congr E _ _ ueid q2.symm⟩
      obtain ⟨c, hc⟩ := hreq
      by_cases hs : E.sap_status w.sapLog (identity_request E ⟨ueid, 0, type, FALSE⟩ c) =
          E.RETURNerror
      · obtain ⟨w1, e1, e2, e3, e4⟩ :=
          start_failed_send E w ueid emm_ctx type s r f a c hm hi hc hs
        rw [e1] at h
        cases h
        refine ⟨Or.inr ⟨e4, 0, by decide, e3⟩, ⟨_, e2, ?_⟩, ?_⟩
        · intro m hmem
          rw [List.mem_singleton] at hmem
          subst hmem
          exact shape_identity_request E ⟨ueid, 0, type, FALSE⟩ c
        · intro d hd
          rw [e3] at hd
          cases hd
          rfl
      · obtain ⟨w1, c1, e1, e2, e3, -, -, e6⟩ :=
          start_effect E w ueid emm_ctx type s r f a c hm hi hc hs
        rw [e1] at h
        cases h
        refine ⟨Or.inr ⟨e6, 0, by decide, e3⟩, ⟨_, e2, ?_⟩, ?_⟩
        · intro m hmem
          simp only [List.mem_cons, List.mem_singleton, List.not_mem_nil, or_false] at hmem
          rcases hmem with hmem | hmem
          · subst hmem
            exact shape_identity_request E ⟨ueid, 0, type, FALSE⟩ c
          · subst hmem
            exact shape_of_emm_reg E ueid type _ (by simp [started, emm_sap_t.prim])
        · intro d hd
          rw [e3] at hd
          cases hd
          rfl
    · obtain ⟨ha, h1, -, h3, -, -⟩ := malloc_data_some E w a hm
      obtain ⟨i1, -, i3, -⟩ :=
        initialize_frame E (malloc_data E w).1 ueid s r f (some a)
      have hlive : deref ( emm_proc_common_initialize E (malloc_data E w).1 ueid s r f (some a)).1
          (some a) = some ⟨0, 0, emm_proc_identity_type_t.NOT_AVAILABLE, 0⟩ := by
        simp only [deref, i1, h1]
        simp [ha]
      simp only [emm_proc_identification, hm, hi, ne_eq, not_false_eq_true, if_true,
        free_ok _ a _ hlive, Except.ok.injEq] at h
      subst h
      have hfreed : deref { ( emm_proc_common_initialize E (malloc_data E w).1 ueid s r f
          (some a)).1 with heap := ( emm_proc_common_initialize E (malloc_data E w).1 ueid s r f
            (some a)).1.heap.set a none } (some a) = none := deref_freed _ a
      refine ⟨Or.inl hfreed, ⟨[], ?_, by simp⟩, ?_⟩
      · show ( emm_proc_common_initialize E (malloc_data E w).1 ueid s r f (some a)).1.sapLog = _
        rw [i3, h3]
        simp
      · intro d hd
        rw [hfreed] at hd
        cases hd

theorem lifetime_invariant (E : Platform) (w : World) (ueid : Nat) (emm_ctx : Option Nat)
    (type : emm_proc_identity_type_t) (s r f : Nat) (evs : List Event) (w1 : World)
    (h : lifetime E w ueid emm_ctx type s r f evs = .ok w1) :
    between_events ueid type (malloc_data E w).2 w1 ∧
      ∃ l, w1.sapLog = w.sapLog ++ l ∧ ∀ m ∈ l, request_shape E ueid type m := by
  simp only [lifetime] at h
  cases hst : emm_proc_identification E w ueid emm_ctx type s r f with
  | error e => simp [hst] at h
  | ok x =>
    simp only [hst] at h
    obtain ⟨hb, ⟨l1, g1, g2⟩, -⟩ := start_invariant E w ueid emm_ctx type s r f x hst
    obtain ⟨hb2, l2, g3, g4⟩ :=
      run_invariant E ueid type (malloc_data E w).2 evs x.1 w1 hb h
    refine ⟨hb2, l1 ++ l2, ?_, ?_⟩
    · rw [g3, g1, List.append_assoc]
    · intro m hm
      rcases List.mem_append.mp hm with hm | hm
      · exact g2 m hm
      · exact g4 m hm

theorem identity_requests_append_request (l : List emm_sap_t) (E : Platform)
    (d : identification_data_t) (c : emm_data_context_t) :
    identity_requests (l ++ [identity_request E d c]) = identity_requests l + 1 := by
  simp [identity_requests, List.countP_append, identity_request, emm_sap_t.prim]

theorem identity_requests_append_reject (l : List emm_sap_t) (ueid : Nat) :
    identity_requests (l ++ [abort_reject ueid]) = identity_requests l := by
  simp [identity_requests, List.countP_append, abort_reject, emm_sap_t.prim]

theorem handler_unfold (E : Platform) (w : World) (a : Nat) (d : identification_data_t)
    (hd : deref w (some a) = some d)
    (hk : d.retransmission_count < IDENTIFICATION_COUNTER_MAX) :
    _identification_t3470_handler E w (some a) =
      (if d.retransmission_count + 1 < IDENTIFICATION_COUNTER_MAX then
        (match _identification_request E
            (poke w a { d with retransmission_count := d.retransmission_count + 1 })
            (some a) with
         | .error e => .error e
         | .ok x => .ok x.1)
       else
        (match _identification_abort E
            (poke w a { d with retransmission_count := d.retransmission_count + 1,
                               notify_failure := TRUE })
            (some a) with
         | .error e => .error e
         | .ok x => .ok x.1)) := by
  have hmod : (d.retransmission_count + 1) % 2 ^ 32 = d.retransmission_count + 1 := by
    apply Nat.mod_eq_of_lt
    unfold IDENTIFICATION_COUNTER_MAX at hk
    omega
  simp only [_identification_t3470_handler, hd, hmod]

/-- C16. From `emm_proc_identification` on, after any sequence of T3470
expiries, completions and aborts that the code executes, a procedure context
that is still allocated has a retransmission counter of at most
`IDENTIFICATION_COUNTER_MAX` (5). The counter is 0 right after the start. An
expiry raises it by exactly 1: if the new value is below 5 the context stays
allocated with that value and exactly one identity request is sent; otherwise
the new value is 5, the handler is the abort of the context holding that
value, no identity request is sent and the context is freed. -/
theorem retry_count_invariant (E : Platform) (w : World) (ueid : Nat)
    (emm_ctx : Option Nat) (type : emm_proc_identity_type_t) (s r f : Nat) :
    (∀ x, emm_proc_identification E w ueid emm_ctx type s r f = .ok x →
      ∀ d, deref x.1 (malloc_data E w).2 = some d → d.retransmission_count = 0) ∧
    (∀ evs w1, lifetime E w ueid emm_ctx type s r f evs = .ok w1 →
      ∀ d, deref w1 (malloc_data E w).2 = some d →
        d.retransmission_count ≤ IDENTIFICATION_COUNTER_MAX ∧
        ∀ w2, _identification_t3470_handler E w1 (malloc_data E w).2 = .ok w2 →
          (d.retransmission_count + 1 < IDENTIFICATION_COUNTER_MAX →
            deref w2 (malloc_data E w).2 =
              some { d with retransmission_count := d.retransmission_count + 1 } ∧
            identity_requests w2.sapLog = identity_requests w1.sapLog + 1) ∧
          (¬ d.retransmission_count + 1 < IDENTIFICATION_COUNTER_MAX →
            d.retransmission_count + 1 = IDENTIFICATION_COUNTER_MAX ∧
            (∃ a, (malloc_data E w).2 = some a ∧
              _identification_t3470_handler E w1 (some a) =
                (match _identification_abort E
                    (poke w1 a { d with retransmission_count := d.retransmission_count + 1,
                                        notify_failure := TRUE })
                    (some a) with
                 | .error e => .error e
                 | .ok x => .ok x.1)) ∧
            deref w2 (malloc_data E w).2 = none ∧
            identity_requests w2.sapLog = identity_requests w1.sapLog)) := by
  constructor
  · intro x hx
    exact (start_invariant E w ueid emm_ctx type s r f x hx).2.2
  · intro evs w1 h d hd
    obtain ⟨hb, -⟩ := lifetime_invariant E w ueid emm_ctx type s r f evs w1 h
    rcases hb with hb | ⟨-, k, hk, hlive⟩
    · rw [hb] at hd
      cases hd
    · rw [hlive] at hd
      cases hd
      refine ⟨Nat.le_of_lt hk, ?_⟩
      intro w2 h2
      obtain ⟨a, d1, c, ha, hd1, hc⟩ := handler_ok_inv E w1 _ w2 h2
      rw [ha] at hlive h2 ⊢
      rw [hlive] at hd1
      cases hd1
      constructor
      · intro hlt
        obtain ⟨w3, c3, e1, e2, e3, -⟩ :=
          handler_resend E w1 a ⟨ueid, k, type, FALSE⟩ c hlive hlt hc
        rw [e1] at h2
        cases h2
        exact ⟨e3, by rw [e2, identity_requests_append_request]⟩
      · intro hlt
        have hk4 : k = 4 := by
          unfold IDENTIFICATION_COUNTER_MAX at hk hlt
          simp only at hlt
          omega
        subst hk4
        obtain ⟨w3, e1, e2, e3, -⟩ :=
          handler_exhaust E w1 a ⟨ueid, 4, type, FALSE⟩ c hlive
            (by show ¬ (4 + 1) % 2 ^ 32 < 5; decide) hc
        rw [e1] at h2
        cases h2
        refine ⟨rfl, ⟨a, rfl, ?_⟩, e3, by rw [e2, identity_requests_append_reject]⟩
        rw [handler_unfold E w1 a ⟨ueid, 4, type, FALSE⟩ hlive (by show 4 < 5; decide)]
        rfl

/-- Instance of C16: UE 7 after the start and two expiries, and the effect of
a third expiry. -/
theorem retry_count_invariant_witness :
    ∃ w1, lifetime P0 w0 7 (some 7) emm_proc_identity_type_t.IMSI 1 2 3
        [Event.expiry, Event.expiry] = .ok w1 ∧
      deref w1 (some 0) = some ⟨7, 2, emm_proc_identity_type_t.IMSI, 0⟩ ∧
      ∃ w2, _identification_t3470_handler P0 w1 (some 0) = .ok w2 ∧
        deref w2 (some 0) = some ⟨7, 3, emm_proc_identity_type_t.IMSI, 0⟩ ∧
        identity_requests w2.sapLog = identity_requests w1.sapLog + 1 := by
  have h := (retry_count_invariant P0 w0 7 (some 7) emm_proc_identity_type_t.IMSI 1 2 3).2
  cases hl : lifetime P0 w0 7 (some 7) emm_proc_identity_type_t.IMSI 1 2 3
      [Event.expiry, Event.expiry] with
  | error e =>
    have he : (lifetime P0 w0 7 (some 7) emm_proc_identity_type_t.IMSI 1 2 3
      [Event.expiry, Event.expiry]).toBool = true := rfl
    rw [hl] at he
    cases he
  | ok w1 =>
    have hd : deref w1 (some 0) = some ⟨7, 2, emm_proc_identity_type_t.IMSI, 0⟩ := by
      have he : (lifetime P0 w0 7 (some 7) emm_proc_identity_type_t.IMSI 1 2 3
        [Event.expiry, Event.expiry]).map (fun x => deref x (some 0)) =
          .ok (some ⟨7, 2, emm_proc_identity_type_t.IMSI, 0⟩) := rfl
      rw [hl] at he
      simpa [Except.map] using he
    cases hh : _identification_t3470_handler P0 w1 (some 0) with
    | error e =>
      have he : (match lifetime P0 w0 7 (some 7) emm_proc_identity_type_t.IMSI 1 2 3
          [Event.expiry, Event.expiry] with
        | .ok x => (_identification_t3470_handler P0 x (some 0)).toBool
        | .error _ => true) = true := rfl
      rw [hl] at he
      simp only [hh] at he
      cases he
    | ok w2 =>
      obtain ⟨-, h3⟩ := h [Event.expiry, Event.expiry] w1 hl
        ⟨7, 2, emm_proc_identity_type_t.IMSI, 0⟩ hd
      obtain ⟨h4, -⟩ := h3 w2 hh
      obtain ⟨h5, h6⟩ := h4 (by decide)
      exact ⟨w1, rfl, hd, w2, hh, h5, h6⟩

/-- C17. In every state that a lifetime reaches between two events, a
procedure context that is still allocated has `notify_failure` clear, so that
its abort from outside the expiry handler (the UE context existing) sends no
primitive and returns `RETURNok`. An expiry sets the flag only when it raises
the counter to `IDENTIFICATION_COUNTER_MAX`, in the record it hands to
`_identification_abort`, which frees it; an expiry that keeps the counter
below that bound hands the record with the flag untouched to
`_identification_request`. -/
theorem failure_flag_only_on_exhaustion (E : Platform) (w : World) (ueid : Nat)
    (emm_ctx : Option Nat) (type : emm_proc_identity_type_t) (s r f : Nat)
    (evs : List Event) (w1 : World)
    (h : lifetime E w ueid emm_ctx type s r f evs = .ok w1) :
    ∀ d, deref w1 (malloc_data E w).2 = some d →
      d.notify_failure = FALSE ∧
      (∀ c, emm_ctx_get E w1 d.ueid = some c →
        ∃ w2, _identification_abort E w1 (malloc_data E w).2 = .ok (w2, E.RETURNok) ∧
          w2.sapLog = w1.sapLog ∧ deref w2 (malloc_data E w).2 = none) ∧
      ∃ a, (malloc_data E w).2 = some a ∧
        _identification_t3470_handler E w1 (some a) =
          (if d.retransmission_count + 1 < IDENTIFICATION_COUNTER_MAX then
            (match _identification_request E
                (poke w1 a { d with retransmission_count := d.retransmission_count + 1 })
                (some a) with
             | .error e => .error e
             | .ok x => .ok x.1)
           else
            (match _identification_abort E
                (poke w1 a { d with retransmission_count := d.retransmission_count + 1,
                                    notify_failure := TRUE })
                (some a) with
             | .error e => .error e
             | .ok x => .ok x.1)) := by
  intro d hd
  obtain ⟨hb, -⟩ := lifetime_invariant E w ueid emm_ctx type s r f evs w1 h
  rcases hb with hb | ⟨-, k, hk, hlive⟩
  · rw [hb] at hd
    cases hd
  · rw [hlive] at hd
    cases hd
    cases hm : (malloc_data E w).2 with
    | none =>
      rw [hm] at hlive
      cases hlive
    | some a =>
      rw [hm] at hlive
      refine ⟨rfl, ?_, a, rfl, handler_unfold E w1 a ⟨ueid, k, type, FALSE⟩ hlive hk⟩
      intro c hc
      obtain ⟨w2, e1, e2, e3⟩ :=
        abort_silent E w1 a ⟨ueid, k, type, FALSE⟩ c hlive hc rfl
      exact ⟨w2, e1, e2, e3⟩

/-- Instance of C17: UE 7 after the start and one expiry; an external abort
in that state is silent. -/
theorem failure_flag_only_on_exhaustion_witness :
    ∃ w1, lifetime P0 w0 7 (some 7) emm_proc_identity_type_t.IMSI 1 2 3 [Event.expiry] =
        .ok w1 ∧
      deref w1 (some 0) = some ⟨7, 1, emm_proc_identity_type_t.IMSI, 0⟩ ∧
      ∃ w2, _identification_abort P0 w1 (some 0) = .ok (w2, 0) ∧
        w2.sapLog = w1.sapLog := by
  cases hl : lifetime P0 w0 7 (some 7) emm_proc_identity_type_t.IMSI 1 2 3 [Event.expiry] with
  | error e =>
    have he : (lifetime P0 w0 7 (some 7) emm_proc_identity_type_t.IMSI 1 2 3
      [Event.expiry]).toBool = true := rfl
    rw [hl] at he
    cases he
  | ok w1 =>
    have hq : (lifetime P0 w0 7 (some 7) emm_proc_identity_type_t.IMSI 1 2 3
        [Event.expiry]).map (fun x => (deref x (some 0), emm_ctx_get P0 x 7)) =
          .ok (some ⟨7, 1, emm_proc_identity_type_t.IMSI, 0⟩,
            some { c0 with T3470 := ⟨1, 6⟩ }) := rfl
    rw [hl] at hq
    simp only [Except.map, Except.ok.injEq, Prod.mk.injEq] at hq
    obtain ⟨hd, hc⟩ := hq
    obtain ⟨-, h2, -⟩ := failure_flag_only_on_exhaustion P0 w0 7 (some 7)
      emm_proc_identity_type_t.IMSI 1 2 3 [Event.expiry] w1 hl
      ⟨7, 1, emm_proc_identity_type_t.IMSI, 0⟩ hd
    obtain ⟨w2, e1, e2, -⟩ := h2 _ hc
    exact ⟨w1, rfl, hd, w2, e1, e2⟩

theorem request_frame (E : Platform) (w : World) (data : Option Nat)
    (d : identification_data_t) (c : emm_data_context_t)
    (hd : deref w data = some d) (hc : emm_ctx_get E w d.ueid = some c) :
    ∃ w1 rc c1, _identification_request E w data = .ok (w1, rc) ∧
      w1.sapLog = w.sapLog ++ [identity_request E d c] ∧
      (∀ p, deref w1 p = deref w p) ∧
      emm_ctx_get E w1 d.ueid = some c1 ∧
      c1 = { c with T3470 := ⟨c1.T3470.id, c.T3470.sec⟩ } ∧
      (∀ v, v ≠ d.ueid → w1.ctx v = w.ctx v) ∧
      w1.registry = w.registry ∧ w1.conf_gummei = w.conf_gummei := by
  rw [request_eq E w data d c hd hc]
  have hput : ∀ (w0 : World) (c1 : emm_data_context_t) (v : Nat), v ≠ d.ueid →
      (emm_ctx_put w0 d.ueid c1).ctx v = w0.ctx v := by
    intro w0 c1 v hv
    simp [emm_ctx_put, Function.update_noteq hv]
  by_cases hs : (emm_sap_send E w (identity_request E d c)).2 = E.RETURNerror
  · simp only [hs, ne_eq, not_true_eq_false, if_false]
    exact ⟨(emm_sap_send E w (identity_request E d c)).1, _, c, rfl, rfl, fun _ => rfl, hc,
      rfl, fun _ _ => rfl, rfl, rfl⟩
  · by_cases hi : c.T3470.id = E.NAS_TIMER_INACTIVE_ID
    · simp only [hs, hi, ne_eq, not_false_eq_true, not_true_eq_false, if_true, if_false]
      exact ⟨_, _, _, rfl, rfl, fun _ => rfl, emm_ctx_get_put_same E _ _ c _ hc, rfl,
        fun v hv => hput _ _ v hv, rfl, rfl⟩
    · simp only [hs, hi, ne_eq, not_false_eq_true, if_true]
      exact ⟨_, _, _, rfl, rfl, fun _ => rfl, emm_ctx_get_put_same E _ _ c _ hc, rfl,
        fun v hv => hput _ _ v hv, rfl, rfl⟩

/-- C18. Every identity request sent during a lifetime (by the start and by
every resend) is an `EMMAS_SECURITY_REQ` with a null GUTI, the UE id and the
identity type given to `emm_proc_identification`, and the message type
`EMM_AS_MSG_TYPE_IDENT`. And `_identification_request` sends exactly that
primitive for its context, changes no procedure context (UE id, counter,
type and flag all keep their values), leaves the UE contexts of other UEs and
the registry as they were, and changes at most the T3470 handle of the UE
context: identity fields, security context, attachment state and the interval
`T3470.sec` keep their values. -/
theorem request_content_and_frame (E : Platform) (w : World) :
    (∀ ueid emm_ctx type s r f evs w1,
      lifetime E w ueid emm_ctx type s r f evs = .ok w1 →
      ∃ l, w1.sapLog = w.sapLog ++ l ∧
        ∀ m ∈ l, m.prim = emm_primitive_t.EMMAS_SECURITY_REQ →
          ∃ sctx, m = emm_sap_t.emm_as_security emm_primitive_t.EMMAS_SECURITY_REQ none
            ueid E.EMM_AS_MSG_TYPE_IDENT type sctx) ∧
    (∀ data d c, deref w data = some d → emm_ctx_get E w d.ueid = some c →
      ∃ w1 rc c1, _identification_request E w data = .ok (w1, rc) ∧
        w1.sapLog = w.sapLog ++
          [emm_sap_t.emm_as_security emm_primitive_t.EMMAS_SECURITY_REQ none d.ueid
            E.EMM_AS_MSG_TYPE_IDENT d.type (E.security_data c.security FALSE TRUE)] ∧
        (∀ p, deref w1 p = deref w p) ∧
        emm_ctx_get E w1 d.ueid = some c1 ∧
        c1 = { c with T3470 := ⟨c1.T3470.id, c.T3470.sec⟩ } ∧
        (∀ v, v ≠ d.ueid → w1.ctx v = w.ctx v) ∧
        w1.registry = w.registry) := by
  constructor
  · intro ueid emm_ctx type s r f evs w1 h
    obtain ⟨-, l, g1, g2⟩ := lifetime_invariant E w ueid emm_ctx type s r f evs w1 h
    exact ⟨l, g1, fun m hm => g2 m hm⟩
  · intro data d c hd hc
    obtain ⟨w1, rc, c1, h1, h2, h3, h4, h5, h6, h7, -⟩ := request_frame E w data d c hd hc
    exact ⟨w1, rc, c1, h1, h2, h3, h4, h5, h6, h7⟩

/-- Instance of C18: the requests of UE 7 during a start and two expiries,
and a resend on the running procedure. -/
theorem request_content_and_frame_witness :
    (lifetime P0 w0 7 (some 7) emm_proc_identity_type_t.IMSI 1 2 3
      [Event.expiry, Event.expiry]).toBool = true ∧
    (∀ w1, lifetime P0 w0 7 (some 7) emm_proc_identity_type_t.IMSI 1 2 3
        [Event.expiry, Event.expiry] = .ok w1 →
      ∃ l, w1.sapLog = w0.sapLog ++ l ∧
        ∀ m ∈ l, m.prim = emm_primitive_t.EMMAS_SECURITY_REQ →
          ∃ sctx, m = emm_sap_t.emm_as_security emm_primitive_t.EMMAS_SECURITY_REQ none
            7 P0.EMM_AS_MSG_TYPE_IDENT emm_proc_identity_type_t.IMSI sctx) ∧
    ∃ w1 rc c1, _identification_request P0 (w_running 0) (some 0) = .ok (w1, rc) ∧
      (∀ p, deref w1 p = deref (w_running 0) p) ∧
      emm_ctx_get P0 w1 7 = some c1 ∧
      c1 = { c0 with T3470 := ⟨c1.T3470.id, 6⟩ } := by
  have h := request_content_and_frame P0 w0
  have hr := request_content_and_frame P0 (w_running 0)
  obtain ⟨w1, rc, c1, h1, -, h3, h4, h5, -, -⟩ :=
    hr.2 (some 0) ⟨7, 0, emm_proc_identity_type_t.IMSI, 0⟩ { c0 with T3470 := ⟨3, 6⟩ } rfl rfl
  exact ⟨rfl, fun w1 hl => h.1 7 (some 7) emm_proc_identity_type_t.IMSI 1 2 3 _ w1 hl,
    w1, rc, c1, h1, h3, h4, h5⟩

/-! ## The temporary identity -/

/-- C21, as amended. For a UE whose context exists and any TMSI `t`,
`emm_proc_identification_complete(ueid, NULL, NULL, &t)` sends
`EMMREG_COMMON_PROC_CNF` and leaves IMSI and IMEI as they were. The GUTI
afterwards holds the configured `_emm_data.conf.gummei` and `m_tmsi = t`, both
parts overwritten, when the record was allocated before the call or its
allocation succeeds; when it was `NULL` and the allocation fails it stays
`NULL`. -/
theorem complete_records_tmsi (E : Platform) (w : World) (ueid : Nat) (t : Nat)
    (c : emm_data_context_t)
    (hr : registry_sound w ueid) (hc : emm_ctx_get E w ueid = some c) :
    ∃ w1 c1, emm_proc_identification_complete E w ueid none none (some t) =
        .ok (w1, E.sap_status w.sapLog (emm_sap_t.emm_reg
            emm_primitive_t.EMMREG_COMMON_PROC_CNF ueid (some (some ueid)) (some
            c.is_attached))) ∧
      w1.sapLog = w.sapLog ++ [emm_sap_t.emm_reg emm_primitive_t.EMMREG_COMMON_PROC_CNF ueid
          (some (some ueid)) (some c.is_attached)] ∧
      emm_ctx_get E w1 ueid = some c1 ∧
      c1.guti = (if c.guti.isSome || E.malloc_ok w.nalloc
        then some ⟨w.conf_gummei, t⟩ else none) ∧
      c1.imsi = c.imsi ∧ c1.imei = c.imei := by
  obtain ⟨w1, c1, h1, h2, h3, h4⟩ :=
    complete_ctx_after E w ueid none none (some t) c hr hc
  have hn : (nas_timer_stop E (released w ueid) c.T3470.id).1.nalloc = w.nalloc := by
    simp [nas_timer_stop]
  have hg : (nas_timer_stop E (released w ueid) c.T3470.id).1.conf_gummei =
      w.conf_gummei := by
    simp [nas_timer_stop]
  have u3 := update_identity_guti E
    (nas_timer_stop E (released w ueid) c.T3470.id).1
    { c with T3470 := { c.T3470 with id := E.timer_stop w.timerLog c.T3470.id } } t
  obtain ⟨u1, u2⟩ := update_identity_tmsi E
    (nas_timer_stop E (released w ueid) c.T3470.id).1
    { c with T3470 := { c.T3470 with id := E.timer_stop w.timerLog c.T3470.id } } t
  rw [hn, hg] at u3
  exact ⟨w1, c1, h1, h2, h3, by rw [h4, u3], by rw [h4, u1], by rw [h4, u2]⟩

/-- Instances of C21 (amended): the GUTI of UE 7 is allocated in `w0`, where
it is `NULL`, and overwritten in `w_identified`, where it holds the TMSI 77. -/
theorem complete_records_tmsi_witness :
    (∃ w1 c1, emm_proc_identification_complete P0 w0 7 none none (some 5) = .ok (w1, 0) ∧
      emm_ctx_get P0 w1 7 = some c1 ∧ c1.guti = some ⟨⟨20893, 4, 1⟩, 5⟩) ∧
    (∃ w1 c1, emm_proc_identification_complete P0 w_identified 7 none none (some 5) =
        .ok (w1, 0) ∧
      emm_ctx_get P0 w1 7 = some c1 ∧ c1.guti = some ⟨⟨20893, 4, 1⟩, 5⟩) := by
  obtain ⟨w1, c1, h1, -, h3, h4, -, -⟩ :=
    complete_records_tmsi P0 w0 7 5 c0 (registry_sound_empty _ _ rfl) rfl
  obtain ⟨w2, c2, g1, -, g3, g4, -, -⟩ :=
    complete_records_tmsi P0 w_identified 7 5 c_identified (registry_sound_empty _ _ rfl) rfl
  exact ⟨⟨w1, c1, h1, h3, h4⟩, ⟨w2, c2, g1, g3, g4⟩⟩

/-- C21 fails as stated: in the state `w0` the GUTI of UE 7 is `NULL`; when
`malloc` returns `NULL` the call with the TMSI 5 sends
`EMMREG_COMMON_PROC_CNF` and returns its status, but the GUTI is still `NULL`. -/
theorem complete_tmsi_allocation_failure :
    (w0.ctx 7).map (fun c => c.guti) = some none ∧
    (emm_proc_identification_complete P_no_memory w0 7 none none (some 5)).map
        (fun r => ((r.1.ctx 7).map (fun c => c.guti), r.1.sapLog, r.2)) =
      .ok (some none, [emm_sap_t.emm_reg emm_primitive_t.EMMREG_COMMON_PROC_CNF 7 (some (some
          7)) (some 1)], 0) := by
  constructor <;> rfl

/-! ## The range guard of the UE context lookup -/

theorem emm_ctx_get_out_of_range (E : Platform) (w : World) (ueid : Nat)
    (h : ueid_out_of_range E ueid) : emm_ctx_get E w ueid = none := by
  unfold ueid_out_of_range at h
  unfold emm_ctx_get
  cases hb : E.NAS_BUILT_IN_EPC
  · simp only [hb, Bool.false_eq_true, if_false] at h ⊢
    simp [Nat.not_lt.mpr h]
  · simp only [hb, if_true] at h ⊢
    simp [h]

/-- C22. For a UE id outside the valid range of the store (0 in the
built-in-EPC build, at least `EMM_DATA_NB_UE_MAX` in the array-backed build)
the guarded lookup yields `NULL` whatever the store holds. In
`emm_proc_identification_complete` this leads to exactly one primitive,
`EMMREG_COMMON_PROC_REJ` for that UE id, whose send status is returned, with
the whole store left as it was. In `_identification_request` and
`_identification_abort`, on a valid procedure context that carries such a UE
id, the `NULL` result is what the code then dereferences. -/
theorem ueid_range_guard (E : Platform) (ueid : Nat) (h : ueid_out_of_range E ueid) :
    (∀ w, emm_ctx_get E w ueid = none) ∧
    (∀ w imsi imei tmsi, registry_sound w ueid →
      ∃ w1, emm_proc_identification_complete E w ueid imsi imei tmsi =
          .ok (w1, E.sap_status w.sapLog (emm_sap_t.emm_reg
              emm_primitive_t.EMMREG_COMMON_PROC_REJ ueid (some none) none)) ∧
        w1.sapLog = w.sapLog ++ [emm_sap_t.emm_reg emm_primitive_t.EMMREG_COMMON_PROC_REJ ueid
            (some none) none] ∧ w1.ctx = w.ctx) ∧
    (∀ w data d, deref w data = some d → d.ueid = ueid →
      _identification_request E w data = .error Fault.null_ctx) ∧
    (∀ w a d, deref w (some a) = some d → d.ueid = ueid →
      _identification_abort E w (some a) = .error Fault.null_ctx) := by
  refine ⟨fun w => emm_ctx_get_out_of_range E w ueid h, ?_, ?_, ?_⟩
  · intro w imsi imei tmsi hr
    rw [complete_eq_none E w ueid imsi imei tmsi hr (emm_ctx_get_out_of_range E w ueid h)]
    refine ⟨(emm_sap_send E (released w ueid) (complete_reject ueid)).1, ?_, ?_, ?_⟩
    · simp only [emm_sap_send, released_sapLog, complete_reject]
    · simp only [emm_sap_send, released_sapLog, complete_reject]
    · simp only [emm_sap_send, released_ctx]
  · intro w data d hd hu
    subst hu
    simp only [_identification_request, hd, emm_ctx_get_out_of_range E w d.ueid h]
  · intro w a d hd hu
    subst hu
    simp only [_identification_abort, hd, emm_ctx_get_out_of_range E w d.ueid h]

/-- Instances of C22 on a store that answers every UE id with a context:
UE id 0 in the built-in-EPC build and UE id 12 in the array-backed build with
10 entries are rejected and nothing is written, while UE id 7 is in range in
both builds. -/
theorem ueid_range_guard_witness :
    ueid_out_of_range P0 0 ∧ ueid_out_of_range P_array 12 ∧
    w_full.ctx 0 = some c_identified ∧ w_full.ctx 12 = some c_identified ∧
    (∃ w1, emm_proc_identification_complete P0 w_full 0 (some imsi0) none none =
        .ok (w1, 0) ∧
      w1.sapLog = [emm_sap_t.emm_reg emm_primitive_t.EMMREG_COMMON_PROC_REJ 0 (some none) none]
          ∧ w1.ctx = w_full.ctx) ∧
    (∃ w1, emm_proc_identification_complete P_array w_full 12 (some imsi0) none none =
        .ok (w1, 0) ∧
      w1.sapLog = [emm_sap_t.emm_reg emm_primitive_t.EMMREG_COMMON_PROC_REJ 12 (some none)
          none] ∧ w1.ctx = w_full.ctx) ∧
    emm_ctx_get P0 w_full 7 = some c_identified ∧
    emm_ctx_get P_array w_full 7 = some c_identified := by
  have h0 : ueid_out_of_range P0 0 := by
    unfold ueid_out_of_range
    decide
  have h12 : ueid_out_of_range P_array 12 := by
    unfold ueid_out_of_range
    decide
  exact ⟨h0, h12, rfl, rfl,
    (ueid_range_guard P0 0 h0).2.1 w_full (some imsi0) none none
      (registry_sound_empty _ _ rfl),
    (ueid_range_guard P_array 12 h12).2.1 w_full (some imsi0) none none
      (registry_sound_empty _ _ rfl),
    rfl, rfl⟩

/-! ## The single owner notification -/

theorem start_ready (E : Platform) (w : World) (ueid : Nat) (emm_ctx : Option Nat)
    (type : emm_proc_identity_type_t) (s r f a : Nat) (c : emm_data_context_t)
    (hm : (malloc_data E w).2 = some a)
    (hi : ( emm_proc_common_initialize E (malloc_data E w).1 ueid s r f (some a)).2 =
      E.RETURNok)
    (hc : emm_ctx_get E w ueid = some c) :
    ∃ w1 rc c1 l, emm_proc_identification E w ueid emm_ctx type s r f = .ok (w1, rc) ∧
      w1.sapLog = w.sapLog ++ l ∧ outcomes l = 0 ∧
      deref w1 (some a) = some ⟨ueid, 0, type, FALSE⟩ ∧
      emm_ctx_get E w1 ueid = some c1 ∧ c1.security = c.security ∧
      emm_proc_common_get_args w1 ueid = some a := by
  by_cases hs : E.sap_status w.sapLog (identity_request E ⟨ueid, 0, type, FALSE⟩ c) =
      E.RETURNerror
  · obtain ⟨p1, p2, p3, -, p5⟩ := prepared_facts E w ueid type s r f a c hm hc
    have hs1 : E.sap_status (prepared E w ueid type s r f a).sapLog
        (identity_request E ⟨ueid, 0, type, FALSE⟩ c) = E.RETURNerror := by
      rw [p3]
      exact hs
    have hreq := request_failed_send E (prepared E w ueid type s r f a) (some a)
      ⟨ueid, 0, type, FALSE⟩ c p1 p2 hs1
    obtain ⟨w1, e1, e2, e3, e4⟩ :=
      start_failed_send E w ueid emm_ctx type s r f a c hm hi hc hs
    refine ⟨w1, _, c, _, e1, e2, ?_, e3, ?_, rfl, e4⟩
    · simp [outcomes, is_outcome, identity_request, emm_sap_t.prim]
    · rw [start_eq E w ueid emm_ctx type s r f a hm hi, hreq] at e1
      simp only [ne_eq, not_true_eq_false, if_false, Except.ok.injEq, Prod.mk.injEq] at e1
      rw [← e1.1, emm_ctx_get_sap]
      exact p2
  · obtain ⟨w1, c1, e1, e2, e3, e4, e5, e6⟩ :=
      start_effect E w ueid emm_ctx type s r f a c hm hi hc hs
    refine ⟨w1, _, c1, _, e1, e2, ?_, e3, e4, e5, e6⟩
    simp [outcomes, is_outcome, identity_request, started, emm_sap_t.prim]

/-- C2, as amended. A lifetime that starts with `emm_proc_identification`
(context allocated and registered, UE context present) and delivers fewer
than 5 expiries has sent no `EMMREG_COMMON_PROC_CNF` and no
`EMMREG_COMMON_PROC_REJ` yet. Ended there by
`emm_proc_identification_complete` it has sent exactly one of them, the
`EMMREG_COMMON_PROC_CNF` for the UE with the attachment state of its context;
ended there by an external `_identification_abort` it has sent none; and the
lifetime ended by the 5th expiry has sent exactly one, the
`EMMREG_COMMON_PROC_REJ` for the UE. This holds whatever statuses the SAP
sends return. Events after the terminal event are not covered. -/
theorem single_notification (E : Platform) (w : World) (ueid : Nat)
    (emm_ctx : Option Nat) (type : emm_proc_identity_type_t) (s r f a : Nat)
    (c : emm_data_context_t)
    (hm : (malloc_data E w).2 = some a)
    (hi : ( emm_proc_common_initialize E (malloc_data E w).1 ueid s r f (some a)).2 =
      E.RETURNok)
    (hc : emm_ctx_get E w ueid = some c) :
    (∀ k, k < 5 → ∃ wk l ck,
      lifetime E w ueid emm_ctx type s r f (List.replicate k Event.expiry) = .ok wk ∧
      wk.sapLog = w.sapLog ++ l ∧ outcomes l = 0 ∧
      emm_ctx_get E wk ueid = some ck ∧
      (∀ imsi imei tmsi, ∃ w1,
        lifetime E w ueid emm_ctx type s r f
          (List.replicate k Event.expiry ++ [Event.complete imsi imei tmsi]) = .ok w1 ∧
        w1.sapLog = w.sapLog ++ l ++
          [emm_sap_t.emm_reg emm_primitive_t.EMMREG_COMMON_PROC_CNF ueid (some (some ueid))
            (some ck.is_attached)]) ∧
      (∃ w1,
        lifetime E w ueid emm_ctx type s r f
          (List.replicate k Event.expiry ++ [Event.abort]) = .ok w1 ∧
        w1.sapLog = w.sapLog ++ l)) ∧
    (∃ w5 l, lifetime E w ueid emm_ctx type s r f (List.replicate 5 Event.expiry) = .ok w5 ∧
      w5.sapLog = w.sapLog ++ l ++
        [emm_sap_t.emm_reg emm_primitive_t.EMMREG_COMMON_PROC_REJ ueid none none] ∧
      outcomes l = 0) := by
  obtain ⟨w1, rc, c1, l0, h1, h2, h0, h3, h4, h5, h6⟩ :=
    start_ready E w ueid emm_ctx type s r f a c hm hi hc
  have hlife : ∀ evs, lifetime E w ueid emm_ctx type s r f evs = run E ueid (some a) w1 evs := by
    intro evs
    simp only [lifetime, h1, hm]
  have hrun : ∀ k, k < 5 → ∃ wk l, run E ueid (some a) w1 (List.replicate k Event.expiry) = .ok wk ∧
      wk.sapLog = w.sapLog ++ l ∧ outcomes l = 0 ∧
      deref wk (some a) = some ⟨ueid, k, type, FALSE⟩ ∧
      (∃ ck, emm_ctx_get E wk ueid = some ck) ∧
      emm_proc_common_get_args wk ueid = some a := by
    intro k hk
    obtain ⟨wk, g1, g2, g3, ⟨ck, g4, -⟩, g5⟩ :=
      expiries_resend E a ueid type c.security k 0 w1
        (by show 0 + k < 5; omega) h3 ⟨c1, h4, h5⟩
    refine ⟨wk, l0 ++ List.replicate k (identity_request E ⟨ueid, 0, type, FALSE⟩ c),
      ?_, ?_, ?_, ?_, ⟨ck, g4⟩, ?_⟩
    · rw [run_replicate_expiry]
      exact g1
    · rw [g2, h2, List.append_assoc]
      rfl
    · rw [outcomes_append_requests]
      exact h0
    · rw [g3]
      congr 2
      omega
    · unfold emm_proc_common_get_args at h6 ⊢
      rw [g5]
      exact h6
  constructor
  · intro k hk
    obtain ⟨wk, l, g1, g2, g0, g3, ⟨ck, g4⟩, g5⟩ := hrun k hk
    refine ⟨wk, l, ck, by rw [hlife]; exact g1, g2, g0, g4, ?_, ?_⟩
    · intro imsi imei tmsi
      have hsound : registry_sound wk ueid := by
        intro b hb
        rw [g5] at hb
        cases hb
        rw [g3]
        rfl
      obtain ⟨w2, c2, e1, e2, -, -⟩ :=
        complete_ctx_after E wk ueid imsi imei tmsi ck hsound g4
      refine ⟨w2, ?_, ?_⟩
      · rw [hlife, run_append E ueid (some a) _ _ w1 wk g1]
        simp only [run, step, e1]
      · rw [e2, g2]
        rfl
    · obtain ⟨w2, e1, e2, -⟩ :=
        abort_silent E wk a ⟨ueid, k, type, FALSE⟩ ck g3 g4 rfl
      refine ⟨w2, ?_, ?_⟩
      · rw [hlife, run_append E ueid (some a) _ _ w1 wk g1]
        simp only [run, step, e1]
      · rw [e2, g2]
  · obtain ⟨w4, l, g1, g2, g0, g3, ⟨c4, g4⟩, -⟩ := hrun 4 (by decide)
    rw [run_replicate_expiry] at g1
    obtain ⟨w5, e1, e2, -, -⟩ :=
      handler_exhaust E w4 a ⟨ueid, 4, type, FALSE⟩ c4 g3
        (by show ¬ (4 + 1) % 2 ^ 32 < 5; decide) g4
    refine ⟨w5, l, ?_, ?_, g0⟩
    · rw [hlife, run_replicate_expiry, expiries_succ_last E (some a) 4 w1 w4 g1]
      exact e1
    · rw [e2, g2]
      rfl

/-- Instances of C2 (amended) for UE 7: the happy path after two expiries on
the platform `P0`, and the exhaustion on `P_sap_fails`, where every SAP send
returns `RETURNerror`. -/
theorem single_notification_witness :
    (malloc_data P0 w0).2 = some 0 ∧
    ( emm_proc_common_initialize P0 (malloc_data P0 w0).1 7 1 2 3 (some 0)).2 = P0.RETURNok ∧
    emm_ctx_get P0 w0 7 = some c0 ∧
    (∃ w1 l ia, lifetime P0 w0 7 (some 7) emm_proc_identity_type_t.IMSI 1 2 3
        [Event.expiry, Event.expiry, Event.complete (some imsi0) none none] = .ok w1 ∧
      w1.sapLog = l ++
        [emm_sap_t.emm_reg emm_primitive_t.EMMREG_COMMON_PROC_CNF 7 (some (some 7)) (some ia)] ∧
      outcomes l = 0) ∧
    (∃ w5 l, lifetime P_sap_fails w0 7 (some 7) emm_proc_identity_type_t.IMSI 1 2 3
        (List.replicate 5 Event.expiry) = .ok w5 ∧
      w5.sapLog = l ++ [emm_sap_t.emm_reg emm_primitive_t.EMMREG_COMMON_PROC_REJ 7 none none] ∧
      outcomes l = 0) := by
  obtain ⟨wk, l, ck, -, -, g0, -, g5, -⟩ :=
    (single_notification P0 w0 7 (some 7) emm_proc_identity_type_t.IMSI 1 2 3 0 c0
      rfl rfl rfl).1 2 (by decide)
  obtain ⟨w1, e1, e2⟩ := g5 (some imsi0) none none
  obtain ⟨w5, l5, f1, f2, f0⟩ :=
    (single_notification P_sap_fails w0 7 (some 7) emm_proc_identity_type_t.IMSI 1 2 3 0 c0
      rfl rfl rfl).2
  refine ⟨rfl, rfl, rfl, ⟨w1, l, ck.is_attached, e1, ?_, g0⟩, ⟨w5, l5, f1, ?_, f0⟩⟩
  · rw [e2]
    simp [w0]
  · rw [f2]
    simp [w0]

/-- C2 fails as stated: the lifetime of UE 7 that consists of the start and an
external `_identification_abort` ends with no owner outcome notification at
all; and a second abort delivered after that terminal event is not a no-op, it
reads the freed procedure context. -/
theorem lifetime_without_notification :
    (lifetime P0 w0 7 (some 7) emm_proc_identity_type_t.IMSI 1 2 3 [Event.abort]).map
        (fun x => outcomes x.sapLog) = .ok 0 ∧
    (lifetime P0 w0 7 (some 7) emm_proc_identity_type_t.IMSI 1 2 3
        [Event.abort, Event.abort]).map (fun x => outcomes x.sapLog) =
      .error Fault.bad_data :=
  ⟨rfl, rfl⟩

end Identification
